import Mathlib

/-!
Verification of the Dubai real-estate analysis pipeline
(`lib/config.py`, `lib/transform/enrichment.py`,
`lib/classes/market_analytics.py`, `lib/classes/validators.py`).

The polars dataframes of the source are modelled shallowly: a `DataFrame`
is a list of named, typed columns together with row-major cells, a cell
being `Option Value` (`none` is polars `null`).  Numeric cells are exact
rationals; `Date` cells are days since 1970-01-01.  Each polars
expression of the source is translated into a function on rows, with
polars null semantics (comparisons against null yield null, a null
`when` condition falls through to `otherwise`) made explicit by
`Option` matching.
-/

namespace DubaiRE

/-- A cell value of a polars column.  Integer and floating columns are both
modelled as exact rationals. -/
inductive Value
  | str (s : String)
  | num (q : ℚ)
  | date (d : ℤ)
  | bool (b : Bool)
  deriving DecidableEq, Repr

/-- The polars dtypes that the source ever mentions (`validators.py` checks
columns against `pl.Int64, pl.Int32, pl.Float64, pl.Float32`). -/
inductive DType
  | int64
  | int32
  | int8
  | float64
  | float32
  | string
  | date
  | boolean
  deriving DecidableEq, Repr

/-- A polars DataFrame: named, typed columns plus row-major cells.
`rows` are aligned positionally with `cols`. -/
structure DataFrame where
  cols : List (String × DType)
  rows : List (List (Option Value))
  deriving DecidableEq, Repr

/-- `pl.DataFrame()`: no columns, no rows. -/
def emptyDataFrame : DataFrame := ⟨[], []⟩

/-- The column names, in order (`df.columns`). -/
def DataFrame.columns (df : DataFrame) : List String := df.cols.map Prod.fst

/-- Number of rows (`df.height`). -/
def DataFrame.height (df : DataFrame) : ℕ := df.rows.length

/-- Column-presence test (`c in df.columns`). -/
def DataFrame.hasCol (df : DataFrame) (c : String) : Bool := df.columns.contains c

/-- Index of the first column with the given name. -/
def colIndex (c : String) : List String → Option ℕ
  | [] => none
  | x :: xs => if x = c then some 0 else (colIndex c xs).map (· + 1)

/-- Read the cell of column `c` out of one row of `df` (`null` if the
column is absent). -/
def DataFrame.getCell (df : DataFrame) (row : List (Option Value)) (c : String) :
    Option Value :=
  match colIndex c df.columns with
  | some i => (row.get? i).getD none
  | none => none

/-- The cell of column `c` in row `i` of `df`. -/
def DataFrame.cellAt (df : DataFrame) (i : ℕ) (c : String) : Option Value :=
  match df.rows.get? i with
  | some r => df.getCell r c
  | none => none

/-- Numeric reading of a cell; non-numeric cells read as null (columns used
numerically by the source are numerically typed). -/
def asNum : Option Value → Option ℚ
  | some (Value.num q) => some q
  | _ => none

/-- String reading of a cell. -/
def asStr : Option Value → Option String
  | some (Value.str s) => some s
  | _ => none

/-- Date reading of a cell, as days since 1970-01-01. -/
def asDate : Option Value → Option ℤ
  | some (Value.date d) => some d
  | _ => none

/-- Numeric cell of column `c` in a row of `df`. -/
def DataFrame.numCell (df : DataFrame) (row : List (Option Value)) (c : String) :
    Option ℚ := asNum (df.getCell row c)

/-- String cell of column `c` in a row of `df`. -/
def DataFrame.strCell (df : DataFrame) (row : List (Option Value)) (c : String) :
    Option String := asStr (df.getCell row c)

/-- Date cell of column `c` in a row of `df`. -/
def DataFrame.dateCell (df : DataFrame) (row : List (Option Value)) (c : String) :
    Option ℤ := asDate (df.getCell row c)

/-- `df.with_columns(expr.alias(name))` for a single column: replaces the
column if the name already exists, otherwise appends it on the right.
`vals` is the computed column, aligned with `rows`. -/
def DataFrame.withColumn (df : DataFrame) (name : String) (dt : DType)
    (vals : List (Option Value)) : DataFrame :=
  match colIndex name df.columns with
  | some i =>
      { cols := df.cols.set i (name, dt),
        rows := List.zipWith (fun r v => r.set i v) df.rows vals }
  | none =>
      { cols := df.cols ++ [(name, dt)],
        rows := List.zipWith (fun r v => r ++ [v]) df.rows vals }

/-- `with_columns` where the new column is computed row-wise. -/
def DataFrame.withColumnMap (df : DataFrame) (name : String) (dt : DType)
    (f : List (Option Value) → Option Value) : DataFrame :=
  df.withColumn name dt (df.rows.map f)

/-- Structural invariant every polars frame satisfies: rows are aligned with
the columns and column names are unique. -/
def DataFrame.wellFormed (df : DataFrame) : Prop :=
  (∀ r ∈ df.rows, r.length = df.cols.length) ∧ df.columns.Nodup

instance (df : DataFrame) : Decidable df.wellFormed := by
  unfold DataFrame.wellFormed
  infer_instance

/-! ## Config (`lib/config.py`) -/

/-- `class AreaTier(Enum)`. -/
inductive AreaTier
  | premium
  | midTier
  | budget
  | emerging
  deriving DecidableEq, Repr

/-- The `.value` of each `AreaTier` member. -/
def AreaTier.value : AreaTier → String
  | premium => "Premium"
  | midTier => "Mid-Tier"
  | budget => "Budget"
  | emerging => "Emerging"

/-- `AREA_CLASSIFICATIONS` (config.py lines 50-82). -/
def AREA_CLASSIFICATIONS : List (String × AreaTier) :=
  [("Downtown Dubai", .premium),
   ("Dubai Marina", .premium),
   ("Palm Jumeirah", .premium),
   ("Emirates Hills", .premium),
   ("Jumeirah Beach Residence", .premium),
   ("Business Bay", .premium),
   ("Dubai Hills Estate", .premium),
   ("Arabian Ranches", .premium),
   ("Jumeirah Village Circle", .midTier),
   ("Jumeirah Village Triangle", .midTier),
   ("Dubai Sports City", .midTier),
   ("Motor City", .midTier),
   ("The Greens", .midTier),
   ("The Views", .midTier),
   ("Discovery Gardens", .midTier),
   ("Mirdif", .midTier),
   ("International City", .budget),
   ("Deira", .budget),
   ("Bur Dubai", .budget),
   ("Al Nahda", .budget),
   ("Al Qusais", .budget),
   ("Dubai South", .emerging),
   ("Dubailand", .emerging),
   ("Dubai Production City", .emerging)]

/-- `get_area_tier` (config.py lines 214-224): dictionary lookup with
`AreaTier.MID_TIER` as default. -/
def get_area_tier (area_name : String) : AreaTier :=
  (AREA_CLASSIFICATIONS.lookup area_name).getD AreaTier.midTier

/-- `PROPERTY_TYPE_MAPPINGS` (config.py lines 108-123). -/
def PROPERTY_TYPE_MAPPINGS : List (String × String) :=
  [("apt", "Apartment"),
   ("apartment", "Apartment"),
   ("flat", "Apartment"),
   ("villa", "Villa"),
   ("townhouse", "Townhouse"),
   ("town house", "Townhouse"),
   ("penthouse", "Penthouse"),
   ("studio", "Studio"),
   ("office", "Office"),
   ("shop", "Retail"),
   ("retail", "Retail"),
   ("warehouse", "Warehouse"),
   ("land", "Land"),
   ("plot", "Land")]

/-- Python `str.lower()` / polars `str.to_lowercase()`: character-wise
lower-casing. -/
def pyLower (s : String) : String := String.mk (s.data.map Char.toLower)

/-- Leading and trailing whitespace removed from a character list. -/
def stripWs (cs : List Char) : List Char :=
  ((cs.dropWhile Char.isWhitespace).reverse.dropWhile Char.isWhitespace).reverse

/-- Python `str.strip()` / polars `str.strip_chars()`: whitespace stripped
from both ends. -/
def pyStrip (s : String) : String := String.mk (stripWs s.data)

/-- Python `str.title()`: a letter is upper-cased when the preceding
character is not a letter, lower-cased otherwise. -/
def pyTitle (s : String) : String :=
  String.mk
    (s.data.foldl
      (fun (acc : List Char × Bool) c =>
        (acc.1 ++ [if c.isAlpha then (if acc.2 then c.toLower else c.toUpper) else c],
         c.isAlpha))
      ([], false)).1

/-- `normalize_property_type` (config.py lines 227-241): falsy input gives
"Unknown"; otherwise lower-case and strip, map through
`PROPERTY_TYPE_MAPPINGS`, falling back to `property_type.title()`. -/
def normalize_property_type (property_type : Option String) : String :=
  match property_type with
  | none => "Unknown"
  | some s =>
      if s = "" then "Unknown"
      else
        let normalized := pyStrip (pyLower s)
        (PROPERTY_TYPE_MAPPINGS.lookup normalized).getD (pyTitle s)

/-- `RESIDENTIAL_USAGE` (config.py lines 127-133). -/
def RESIDENTIAL_USAGE : List String :=
  ["Residential",
   "Residential - Apartment",
   "Residential - Villa",
   "Residential - Townhouse",
   "Residential - Studio"]

/-- `COMMERCIAL_USAGE` (config.py lines 135-140). -/
def COMMERCIAL_USAGE : List String :=
  ["Commercial",
   "Commercial - Office",
   "Commercial - Retail",
   "Commercial - Warehouse"]

/-- `is_residential` (config.py lines 244-254): exact, case-sensitive list
membership. -/
def is_residential (usage : String) : Bool := RESIDENTIAL_USAGE.contains usage

/-- `is_commercial` (config.py lines 257-267): exact, case-sensitive list
membership. -/
def is_commercial (usage : String) : Bool := COMMERCIAL_USAGE.contains usage

/-- `VALIDATION_THRESHOLDS["min_annual_rent"]`. -/
def min_annual_rent : ℚ := 10000
/-- `VALIDATION_THRESHOLDS["max_annual_rent"]`. -/
def max_annual_rent : ℚ := 5000000
/-- `VALIDATION_THRESHOLDS["min_property_size"]`. -/
def min_property_size : ℚ := 200
/-- `VALIDATION_THRESHOLDS["max_property_size"]`. -/
def max_property_size : ℚ := 50000
/-- `VALIDATION_THRESHOLDS["min_psf_residential"]`. -/
def min_psf_residential : ℚ := 20
/-- `VALIDATION_THRESHOLDS["max_psf_residential"]`. -/
def max_psf_residential : ℚ := 500
/-- `VALIDATION_THRESHOLDS["min_psf_commercial"]`. -/
def min_psf_commercial : ℚ := 30
/-- `VALIDATION_THRESHOLDS["max_psf_commercial"]`. -/
def max_psf_commercial : ℚ := 800
/-- `VALIDATION_THRESHOLDS["min_contract_days"]`. -/
def min_contract_days : ℤ := 30
/-- `VALIDATION_THRESHOLDS["max_contract_days"]`. -/
def max_contract_days : ℤ := 730

/-- `MARKET_METRICS["luxury_psf_percentile"]`. -/
def luxury_psf_percentile : ℚ := 75
/-- `MARKET_METRICS["luxury_rent_percentile"]`. -/
def luxury_rent_percentile : ℚ := 80
/-- `MARKET_METRICS["min_area_sample_size"]`. -/
def min_area_sample_size : ℕ := 10

/-- `DATA_QUALITY_RULES["required_fields"]`. -/
def required_fields : List String :=
  ["contract_id", "contract_start_date", "property_usage_en", "annual_amount"]

/-- `DATA_QUALITY_RULES["numeric_fields"]`. -/
def numeric_fields : List String :=
  ["annual_amount", "contract_amount", "no_of_prop"]

/-- `DATA_QUALITY_RULES["date_fields"]`. -/
def date_fields : List String :=
  ["contract_start_date", "contract_end_date"]

/-! ## Shared numeric helpers (polars aggregations) -/

/-- `Series.mean` over the non-null values of a column. -/
def meanQ : List ℚ → Option ℚ
  | [] => none
  | x :: xs => some ((x :: xs).sum / (x :: xs).length)

/-- `Series.median` (polars linear interpolation: the middle element, or the
average of the two middle elements). -/
def medianQ (xs : List ℚ) : Option ℚ :=
  match xs with
  | [] => none
  | _ :: _ =>
      let s := List.insertionSort (· ≤ ·) xs
      let n := xs.length
      if n % 2 = 1 then s.get? (n / 2)
      else
        match s.get? (n / 2 - 1), s.get? (n / 2) with
        | some a, some b => some ((a + b) / 2)
        | _, _ => none

/-- `Series.min`. -/
def minQ : List ℚ → Option ℚ
  | [] => none
  | x :: xs => some (xs.foldl min x)

/-- `Series.max`. -/
def maxQ : List ℚ → Option ℚ
  | [] => none
  | x :: xs => some (xs.foldl max x)

/-- `Series.quantile(q)` with the polars default "nearest" interpolation:
the sorted element at the index nearest to `q * (n - 1)`. -/
def quantileNearest (xs : List ℚ) (q : ℚ) : Option ℚ :=
  match xs with
  | [] => none
  | _ :: _ =>
      let s := List.insertionSort (· ≤ ·) xs
      let n := xs.length
      s.get? (q * (n - 1) + 1 / 2).floor.toNat

/-- Boolean reading of a nullable numeric comparison used in `filter`
conditions: a null operand yields null, which `filter` treats as false. -/
def posNum : Option ℚ → Bool
  | some a => decide (0 < a)
  | none => false

/-! ## Date arithmetic (polars `dt` namespace)

Dates are days since 1970-01-01; the civil-calendar conversions follow the
standard Gregorian algorithms that polars implements. -/

/-- Convert a day count to `(year, month, day)`. -/
def civilFromDays (z : ℤ) : ℤ × ℤ × ℤ :=
  let z' := z + 719468
  let era := Int.fdiv z' 146097
  let doe := z' - era * 146097
  let yoe := Int.fdiv (doe - Int.fdiv doe 1460 + Int.fdiv doe 36524 - Int.fdiv doe 146096) 365
  let y := yoe + era * 400
  let doy := doe - (365 * yoe + Int.fdiv yoe 4 - Int.fdiv yoe 100)
  let mp := Int.fdiv (5 * doy + 2) 153
  let d := doy - Int.fdiv (153 * mp + 2) 5 + 1
  let m := mp + (if mp < 10 then 3 else -9)
  (y + (if m ≤ 2 then 1 else 0), m, d)

/-- Convert `(year, month, day)` to a day count. -/
def daysFromCivil (y m d : ℤ) : ℤ :=
  let y' := y - (if m ≤ 2 then 1 else 0)
  let era := Int.fdiv y' 400
  let yoe := y' - era * 400
  let mp := if 2 < m then m - 3 else m + 9
  let doy := Int.fdiv (153 * mp + 2) 5 + d - 1
  let doe := yoe * 365 + Int.fdiv yoe 4 - Int.fdiv yoe 100 + doy
  era * 146097 + doe - 719468

/-- `dt.year()`. -/
def dateYear (d : ℤ) : ℤ := (civilFromDays d).1

/-- `dt.month()`. -/
def dateMonth (d : ℤ) : ℤ := (civilFromDays d).2.1

/-- `dt.quarter()`. -/
def dateQuarter (d : ℤ) : ℤ := Int.fdiv (dateMonth d + 2) 3

/-- `dt.weekday()`: 1 = Monday .. 7 = Sunday (1970-01-01 was a Thursday). -/
def dateWeekday (d : ℤ) : ℤ := (d + 3) % 7 + 1

/-- `dt.truncate("1mo")`: the first day of the month, as a day count. -/
def dateTruncMonth (d : ℤ) : ℤ :=
  let c := civilFromDays d
  daysFromCivil c.1 c.2.1 1

/-! ## Enricher (`lib/transform/enrichment.py`, class `RentContractsEnricher`) -/

/-- The `when/then/otherwise` expression of `_add_psf` (lines 86-96), applied
to one row: `annual_amount / actual_area` when both are non-null and
positive, else null. -/
def psfValue (amount area : Option ℚ) : Option ℚ :=
  match amount, area with
  | some a, some ar => if 0 < ar ∧ 0 < a then some (a / ar) else none
  | _, _ => none

/-- `_add_psf` (lines 81-98): adds `price_per_sqft` when both source columns
are present, otherwise leaves the frame unchanged. -/
def addPsf (df : DataFrame) : DataFrame :=
  if df.hasCol "actual_area" && df.hasCol "annual_amount" then
    df.withColumnMap "price_per_sqft" .float64 fun r =>
      (psfValue (df.numCell r "annual_amount") (df.numCell r "actual_area")).map Value.num
  else df

/-- `_add_area_tier` (lines 100-116): when `area_name_en` is present, adds
`area_tier` as the literal `"Mid-Tier"` for every row (the config lookup is
left as a TODO in the source). -/
def addAreaTier (df : DataFrame) : DataFrame :=
  if df.hasCol "area_name_en" then
    df.withColumnMap "area_tier" .string fun _ => some (Value.str "Mid-Tier")
  else df

/-- `_normalize_property_types` (lines 118-131): when the type column is
present, adds `property_type_normalized` as the lower-cased, whitespace-
stripped raw string (null stays null); `normalize_property_type` from the
config is never applied. -/
def normalizePropertyTypes (df : DataFrame) : DataFrame :=
  if df.hasCol "ejari_property_type_en" then
    df.withColumnMap "property_type_normalized" .string fun r =>
      (df.strCell r "ejari_property_type_en").map fun s => Value.str (pyStrip (pyLower s))
  else df

/-- The season bucket of `_add_temporal_features` (lines 146-155), reading the
just-added `contract_month` column; a null month falls through every `when`
to `otherwise("Fall")`. -/
def seasonOf : Option ℚ → String
  | some m =>
      if m = 12 ∨ m = 1 ∨ m = 2 then "Winter"
      else if m = 3 ∨ m = 4 ∨ m = 5 then "Spring"
      else if m = 6 ∨ m = 7 ∨ m = 8 then "Summer"
      else "Fall"
  | none => "Fall"

/-- `_add_temporal_features` (lines 133-157): year, quarter, month, weekday of
`contract_start_date`, then the season bucket. -/
def addTemporalFeatures (df : DataFrame) : DataFrame :=
  if df.hasCol "contract_start_date" then
    let df1 := df.withColumnMap "contract_year" .int32 fun r =>
      (df.dateCell r "contract_start_date").map fun d => Value.num (dateYear d)
    let df2 := df1.withColumnMap "contract_quarter" .int8 fun r =>
      (df1.dateCell r "contract_start_date").map fun d => Value.num (dateQuarter d)
    let df3 := df2.withColumnMap "contract_month" .int8 fun r =>
      (df2.dateCell r "contract_start_date").map fun d => Value.num (dateMonth d)
    let df4 := df3.withColumnMap "contract_weekday" .int8 fun r =>
      (df3.dateCell r "contract_start_date").map fun d => Value.num (dateWeekday d)
    df4.withColumnMap "contract_season" .string fun r =>
      some (Value.str (seasonOf (df4.numCell r "contract_month")))
  else df

/-- The `when/then/otherwise` chain assigning the duration category
(lines 175-184): `< 180` short, `< 365` medium, `>= 365` long; a null
duration fails every comparison and falls to `otherwise("Unknown")`. -/
def durationCategory : Option ℚ → String
  | some d => if d < 180 then "Short-term" else if d < 365 then "Medium-term" else "Long-term"
  | none => "Unknown"

/-- `_add_contract_duration` (lines 159-186): whole-day difference of the two
contract dates when both are non-null, then the duration category computed
from the just-added duration column. -/
def addContractDuration (df : DataFrame) : DataFrame :=
  if df.hasCol "contract_start_date" && df.hasCol "contract_end_date" then
    let df1 := df.withColumnMap "contract_duration_days" .int64 fun r =>
      match df.dateCell r "contract_start_date", df.dateCell r "contract_end_date" with
      | some s, some e => some (Value.num ((e - s : ℤ) : ℚ))
      | _, _ => none
    df1.withColumnMap "contract_duration_category" .string fun r =>
      some (Value.str (durationCategory (df1.numCell r "contract_duration_days")))
  else df

/-- Kleene disjunction of nullable booleans (polars `|`). -/
def kleeneOr : Option Bool → Option Bool → Option Bool
  | some true, _ => some true
  | _, some true => some true
  | some false, some false => some false
  | _, _ => none

/-- Nullable `col >= threshold`. -/
def geNullable (x t : Option ℚ) : Option Bool :=
  match x, t with
  | some a, some b => some (decide (b ≤ a))
  | _, _ => none

/-- `_flag_luxury_properties` (lines 188-219): percentile thresholds over rows
where both PSF and amount are non-null; a row is luxury when PSF or amount
reaches its threshold (`when(..).then(True).otherwise(False)`: a null
condition gives `False`).  With no qualifying rows the flag is `False`
everywhere. -/
def flagLuxuryProperties (df : DataFrame) : DataFrame :=
  if df.hasCol "price_per_sqft" && df.hasCol "annual_amount" then
    let valid := df.rows.filter fun r =>
      (df.numCell r "price_per_sqft").isSome && (df.numCell r "annual_amount").isSome
    match valid with
    | [] => df.withColumnMap "is_luxury" .boolean fun _ => some (Value.bool false)
    | _ :: _ =>
        let psfT := quantileNearest (valid.filterMap fun r => df.numCell r "price_per_sqft")
          (luxury_psf_percentile / 100)
        let rentT := quantileNearest (valid.filterMap fun r => df.numCell r "annual_amount")
          (luxury_rent_percentile / 100)
        df.withColumnMap "is_luxury" .boolean fun r =>
          some (Value.bool
            ((kleeneOr (geNullable (df.numCell r "price_per_sqft") psfT)
              (geNullable (df.numCell r "annual_amount") rentT)).getD false))
  else df

/-- Boolean substring test on character lists. -/
def containsSub (pat : List Char) : List Char → Bool
  | [] => pat.isPrefixOf ([] : List Char)
  | c :: cs => pat.isPrefixOf (c :: cs) || containsSub pat cs

/-- Case-insensitive substring match, the meaning of
`str.contains("(?i)residential")` for a lower-case pattern. -/
def containsCI (s pat : String) : Bool := containsSub pat.data (s.data.map Char.toLower)

/-- The `when/then/otherwise` chain of `_add_usage_category` (lines 226-233):
case-insensitive substring match of "residential" then "commercial", null
falling through to "Other". -/
def usageCategoryOf : Option String → String
  | some s =>
      if containsCI s "residential" then "Residential"
      else if containsCI s "commercial" then "Commercial"
      else "Other"
  | none => "Other"

/-- `_add_usage_category` (lines 221-235). -/
def addUsageCategory (df : DataFrame) : DataFrame :=
  if df.hasCol "property_usage_en" then
    df.withColumnMap "usage_category" .string fun r =>
      some (Value.str (usageCategoryOf (df.strCell r "property_usage_en")))
  else df

/-- `RentContractsEnricher.enrich` (lines 45-79): the seven enrichment steps
in source order. -/
def enrich (df : DataFrame) : DataFrame :=
  addUsageCategory (flagLuxuryProperties (addContractDuration (addTemporalFeatures
    (normalizePropertyTypes (addAreaTier (addPsf df))))))

/-! ## Analytics (`lib/classes/market_analytics.py`, class `MarketAnalytics`) -/

/-- A Python runtime exception raised inside an analytics call. -/
inductive PyError
  | typeErrorExprTruthValue
  deriving DecidableEq, Repr

/-- The distinct group keys of a list, first occurrences first. -/
def distinctKeys {α : Type} [DecidableEq α] : List α → List α
  | [] => []
  | a :: as => a :: (distinctKeys as).filter fun x => decide (¬ x = a)

/-- `group_by`: each distinct key paired with the rows carrying it. -/
def groupByKey {α κ : Type} [DecidableEq κ] (key : α → κ) (xs : List α) :
    List (κ × List α) :=
  (distinctKeys (xs.map key)).map fun k => (k, xs.filter fun x => decide (key x = k))

/-- `calculate_psf_metrics` (lines 54-105).  Without an `actual_area` column,
or with no row whose area and amount are both non-null and positive, it
returns `pl.DataFrame()`.  Otherwise it reaches the outlier filter at lines
94-101, which evaluates `is_residential(pl.col("property_usage_en"))`: the
Python `in` test of a polars `Expr` against the `RESIDENTIAL_USAGE` list
truth-tests the `Expr` built by the reflected string comparison, and polars
raises `TypeError` ("the truth value of an Expr is ambiguous"). -/
def calculate_psf_metrics (df : DataFrame) : Except PyError DataFrame :=
  if ¬ df.hasCol "actual_area" then .ok emptyDataFrame
  else
    let valid := df.rows.filter fun r =>
      posNum (df.numCell r "actual_area") && posNum (df.numCell r "annual_amount")
    match valid with
    | [] => .ok emptyDataFrame
    | _ :: _ => .error .typeErrorExprTruthValue

/-- The PSF outlier filter of lines 94-101 under its evident row-wise intent
(and the spec's reading, section 4.3): keep a row when its usage string is an
exact member of the residential list and the PSF lies in the residential
bounds, or likewise for the commercial list and bounds. -/
def psfFilterKeep (usage : Option String) (psf : Option ℚ) : Bool :=
  match usage, psf with
  | some u, some p =>
      (is_residential u && decide (min_psf_residential ≤ p) &&
        decide (p ≤ max_psf_residential)) ||
      (is_commercial u && decide (min_psf_commercial ≤ p) &&
        decide (p ≤ max_psf_commercial))
  | _, _ => false

/-- `calculate_psf_metrics` under the row-wise reading of its final filter
(`psfFilterKeep`); this is the computation the spec describes, differing from
`calculate_psf_metrics` only in that the filter is evaluated per row instead
of raising. -/
def calculatePsfMetricsRowwise (df : DataFrame) : DataFrame :=
  if ¬ df.hasCol "actual_area" then emptyDataFrame
  else
    let valid := df.rows.filter fun r =>
      posNum (df.numCell r "actual_area") && posNum (df.numCell r "annual_amount")
    match valid with
    | [] => emptyDataFrame
    | _ :: _ =>
        let vdf : DataFrame := ⟨df.cols, valid⟩
        let psfDf := vdf.withColumnMap "psf" .float64 fun r =>
          match vdf.numCell r "annual_amount", vdf.numCell r "actual_area" with
          | some a, some ar => some (Value.num (a / ar))
          | _, _ => none
        ⟨psfDf.cols, psfDf.rows.filter fun r =>
          psfFilterKeep (psfDf.strCell r "property_usage_en") (psfDf.numCell r "psf")⟩

/-- One output row of `analyze_by_area`. -/
structure AreaStats where
  area : Option Value
  contract_count : ℕ
  avg_rent : Option ℚ
  median_rent : Option ℚ
  min_rent : Option ℚ
  max_rent : Option ℚ
  avg_psf : Option ℚ
  median_psf : Option ℚ
  avg_area : Option ℚ
  deriving DecidableEq, Repr

/-- The aggregation of `analyze_by_area` for one area group (lines 130-138). -/
def areaStatsOfGroup (psfData : DataFrame) (k : Option Value)
    (g : List (List (Option Value))) : AreaStats :=
  { area := k
    contract_count := g.length
    avg_rent := meanQ (g.filterMap fun r => psfData.numCell r "annual_amount")
    median_rent := medianQ (g.filterMap fun r => psfData.numCell r "annual_amount")
    min_rent := minQ (g.filterMap fun r => psfData.numCell r "annual_amount")
    max_rent := maxQ (g.filterMap fun r => psfData.numCell r "annual_amount")
    avg_psf := meanQ (g.filterMap fun r => psfData.numCell r "psf")
    median_psf := medianQ (g.filterMap fun r => psfData.numCell r "psf")
    avg_area := meanQ (g.filterMap fun r => psfData.numCell r "actual_area") }

/-- Lines 130-141 of `analyze_by_area`: group the PSF subset by area, drop
groups below `min_area_sample_size`, sort by contract count descending. -/
def analyzeByAreaStats (psfData : DataFrame) (areaCol : String) : List AreaStats :=
  List.insertionSort (fun a b => b.contract_count ≤ a.contract_count)
    (((groupByKey (fun r => psfData.getCell r areaCol) psfData.rows).map fun g =>
        areaStatsOfGroup psfData g.1 g.2).filter fun s =>
      decide (min_area_sample_size ≤ s.contract_count))

/-- `analyze_by_area` (lines 107-145): empty result when the area column is
absent or the PSF subset is empty; any exception of `calculate_psf_metrics`
propagates. -/
def analyze_by_area (df : DataFrame) (area_column : String) :
    Except PyError (List AreaStats) :=
  if ¬ df.hasCol area_column then .ok []
  else
    match calculate_psf_metrics df with
    | .error e => .error e
    | .ok psfData =>
        if psfData.height = 0 then .ok []
        else .ok (analyzeByAreaStats psfData area_column)

/-- `analyze_by_area` built on the row-wise PSF filter reading. -/
def analyzeByAreaRowwise (df : DataFrame) (area_column : String) : List AreaStats :=
  if ¬ df.hasCol area_column then []
  else
    let psfData := calculatePsfMetricsRowwise df
    if psfData.height = 0 then [] else analyzeByAreaStats psfData area_column

/-- One output row of `identify_high_demand_areas`. -/
structure HighDemandArea where
  stats : AreaStats
  market_share_pct : ℚ
  deriving DecidableEq, Repr

/-- Lines 169-175 of `identify_high_demand_areas`: `limit(top_n)` of the area
stats, with a market-share percentage whose denominator is the contract-count
total over ALL of `area_stats` (the qualifying areas), not just the top `n`. -/
def highDemandFrom (area_stats : List AreaStats) (top_n : ℕ) : List HighDemandArea :=
  let total := (area_stats.map (·.contract_count)).sum
  (area_stats.take top_n).map fun s => ⟨s, (s.contract_count : ℚ) / total * 100⟩

/-- `identify_high_demand_areas` (lines 147-177). -/
def identify_high_demand_areas (df : DataFrame) (area_column : String) (top_n : ℕ) :
    Except PyError (List HighDemandArea) :=
  match analyze_by_area df area_column with
  | .error e => .error e
  | .ok stats => if stats = [] then .ok [] else .ok (highDemandFrom stats top_n)

/-- `identify_high_demand_areas` built on the row-wise PSF filter reading. -/
def identifyHighDemandAreasRowwise (df : DataFrame) (area_column : String)
    (top_n : ℕ) : List HighDemandArea :=
  let stats := analyzeByAreaRowwise df area_column
  if stats = [] then [] else highDemandFrom stats top_n

/-- One output group of `analyze_by_property_type` / `segment_by_usage`
before the market-share column. -/
structure RentGroupStats where
  key : Option Value
  contract_count : ℕ
  avg_rent : Option ℚ
  median_rent : Option ℚ
  min_rent : Option ℚ
  max_rent : Option ℚ
  deriving DecidableEq, Repr

/-- A rent group with its market-share percentage. -/
structure RentGroupShare where
  stats : RentGroupStats
  market_share_pct : ℚ
  deriving DecidableEq, Repr

/-- The shared body of `analyze_by_property_type` (lines 197-211) and
`segment_by_usage` (lines 232-241): filter to non-null positive amounts,
group by the key column, aggregate rent statistics, sort by contract count
descending. -/
def rentGroupsBy (df : DataFrame) (keyCol : String) : List RentGroupStats :=
  let valid := df.rows.filter fun r => posNum (df.numCell r "annual_amount")
  List.insertionSort (fun a b => b.contract_count ≤ a.contract_count)
    ((groupByKey (fun r => df.getCell r keyCol) valid).map fun g =>
      { key := g.1
        contract_count := g.2.length
        avg_rent := meanQ (g.2.filterMap fun r => df.numCell r "annual_amount")
        median_rent := medianQ (g.2.filterMap fun r => df.numCell r "annual_amount")
        min_rent := minQ (g.2.filterMap fun r => df.numCell r "annual_amount")
        max_rent := maxQ (g.2.filterMap fun r => df.numCell r "annual_amount") })

/-- The market-share column (lines 213-217 and 243-247): each group's count
over the summed count of all groups, times 100. -/
def addMarketShare (gs : List RentGroupStats) : List RentGroupShare :=
  let total := (gs.map (·.contract_count)).sum
  gs.map fun g => ⟨g, (g.contract_count : ℚ) / total * 100⟩

/-- `analyze_by_property_type` (lines 179-221): primary type column with
fall-back to the sub-type column, empty result when neither exists or no row
has a positive amount. -/
def analyze_by_property_type (df : DataFrame) : List RentGroupShare :=
  let typeCol :=
    if df.hasCol "ejari_property_type_en" then some "ejari_property_type_en"
    else if df.hasCol "ejari_property_sub_type_en" then some "ejari_property_sub_type_en"
    else none
  match typeCol with
  | none => []
  | some c =>
      match df.rows.filter fun r => posNum (df.numCell r "annual_amount") with
      | [] => []
      | _ :: _ => addMarketShare (rentGroupsBy df c)

/-- `segment_by_usage` (lines 223-251): group by `property_usage_en` with the
market-share column; no emptiness guard and no minimum sample size. -/
def segment_by_usage (df : DataFrame) : List RentGroupShare :=
  addMarketShare (rentGroupsBy df "property_usage_en")

/-- One output row of `calculate_rental_trends`. -/
structure TrendRow where
  period : Option Value
  contract_count : ℕ
  avg_rent : Option ℚ
  median_rent : Option ℚ
  deriving DecidableEq, Repr

/-- An order on cell values for `sort("period")`; period keys within one call
are homogeneous (all dates or all numbers). -/
def valueLe : Value → Value → Bool
  | .num a, .num b => decide (a ≤ b)
  | .date a, .date b => decide (a ≤ b)
  | .str a, .str b => decide (a ≤ b)
  | .bool a, .bool b => !a || b
  | _, _ => true

/-- Nullable cell order: polars sorts nulls first by default. -/
def optionValueLe : Option Value → Option Value → Bool
  | none, _ => true
  | some _, none => false
  | some a, some b => valueLe a b

/-- `calculate_rental_trends` (lines 288-339): empty result when the date
column is absent, when no row passes the validity filter, or when the period
name is not "monthly", "quarterly" or "yearly" (lines 319-327); otherwise
group by the period key and sort by period ascending. -/
def calculate_rental_trends (df : DataFrame) (date_column : String)
    (period : String) : List TrendRow :=
  if ¬ df.hasCol date_column then []
  else
    let valid := df.rows.filter fun r =>
      (df.getCell r date_column).isSome && posNum (df.numCell r "annual_amount")
    match valid with
    | [] => []
    | _ :: _ =>
        let pf : Option (ℤ → Value) :=
          if period = "monthly" then some fun d => Value.date (dateTruncMonth d)
          else if period = "quarterly" then some fun d => Value.num (dateQuarter d)
          else if period = "yearly" then some fun d => Value.num (dateYear d)
          else none
        match pf with
        | none => []
        | some f =>
            List.insertionSort (fun a b => optionValueLe a.period b.period)
              ((groupByKey (fun r => (df.dateCell r date_column).map f) valid).map
                fun g =>
                  { period := g.1
                    contract_count := g.2.length
                    avg_rent := meanQ (g.2.filterMap fun r => df.numCell r "annual_amount")
                    median_rent :=
                      medianQ (g.2.filterMap fun r => df.numCell r "annual_amount") })

/-! ## Validator (`lib/classes/validators.py`, class `RentContractValidator`)

Message texts are modelled as constructors carrying the data the source
interpolates into each f-string, so that list lengths and order are exact
without reproducing Python number formatting. -/

/-- The validation messages of `validators.py`, one constructor per
`add_error` / `add_warning` / `add_info` call site. -/
inductive VMsg
  | dataFrameIsEmpty
  | validatingRecords (n : ℕ)
  | missingRequiredColumns (cols : List String)
  | nullValues (field : String) (count : ℕ) (pct : ℚ)
  | notNumericType (field : String) (dt : DType)
  | rentLeZero (count : ℕ)
  | rentBelowMin (count : ℕ) (pct : ℚ)
  | rentAboveMax (count : ℕ) (pct : ℚ)
  | sizeLeZero (count : ℕ)
  | sizeBelowMin (count : ℕ) (pct : ℚ)
  | sizeAboveMax (count : ℕ) (pct : ℚ)
  | nullDates (field : String) (count : ℕ) (pct : ℚ)
  | endDateNotAfterStart (count : ℕ)
  | contractsTooShort (count : ℕ)
  | contractsTooLong (count : ℕ)
  | rentOutliers (count : ℕ) (pct : ℚ)
  deriving DecidableEq, Repr

/-- `class ValidationResult` after a validation run: the three message lists
and the validity flag (set false by every `add_error`, hence false exactly
when `errors` is non-empty). -/
structure ValidationResult where
  errors : List VMsg
  warnings : List VMsg
  info : List VMsg
  is_valid : Bool
  deriving DecidableEq, Repr

/-- The messages one check appends to each of the three lists. -/
structure CheckOut where
  errors : List VMsg
  warnings : List VMsg
  info : List VMsg
  deriving DecidableEq, Repr

/-- Sequencing of two checks: each list grows by appending. -/
def CheckOut.append (a b : CheckOut) : CheckOut :=
  ⟨a.errors ++ b.errors, a.warnings ++ b.warnings, a.info ++ b.info⟩

/-- Nullable `col <= 0`. -/
def nonposNum : Option ℚ → Bool
  | some a => decide (a ≤ 0)
  | none => false

/-- Nullable `col < b`. -/
def ltNum (x : Option ℚ) (b : ℚ) : Bool :=
  match x with
  | some a => decide (a < b)
  | none => false

/-- Nullable `b < col`. -/
def gtNum (x : Option ℚ) (b : ℚ) : Bool :=
  match x with
  | some a => decide (b < a)
  | none => false

/-- `_validate_schema` (lines 133-139). -/
def checkSchema (df : DataFrame) : CheckOut :=
  let missing := required_fields.filter fun c => !(df.hasCol c)
  if missing = [] then ⟨[], [], []⟩ else ⟨[.missingRequiredColumns missing], [], []⟩

/-- `_validate_required_fields` (lines 141-155): null counts of the required
fields that exist, an error under strict mode and a warning otherwise. -/
def checkRequiredFields (df : DataFrame) (strict : Bool) : CheckOut :=
  required_fields.foldl
    (fun acc f =>
      if df.hasCol f then
        let nc := (df.rows.filter fun r => (df.getCell r f).isNone).length
        if 0 < nc then
          let m := VMsg.nullValues f nc ((nc : ℚ) / df.height * 100)
          if strict then ⟨acc.errors ++ [m], acc.warnings, acc.info⟩
          else ⟨acc.errors, acc.warnings ++ [m], acc.info⟩
        else acc
      else acc)
    ⟨[], [], []⟩

/-- `_validate_data_types` (lines 157-166): a warning for each present
numeric field whose dtype is not one of the four numeric kinds. -/
def checkDataTypes (df : DataFrame) : CheckOut :=
  numeric_fields.foldl
    (fun acc f =>
      if df.hasCol f then
        match df.cols.lookup f with
        | some dt =>
            if dt = .int64 ∨ dt = .int32 ∨ dt = .float64 ∨ dt = .float32 then acc
            else ⟨acc.errors, acc.warnings ++ [.notNumericType f dt], acc.info⟩
        | none => acc
      else acc)
    ⟨[], [], []⟩

/-- `_validate_rent_amounts` (lines 168-201): over the non-null amounts, an
error for values `<= 0` and warnings for values outside the configured
range, percentages against the non-null subset. -/
def checkRentAmounts (df : DataFrame) : CheckOut :=
  if ¬ df.hasCol "annual_amount" then ⟨[], [], []⟩
  else
    let valid := df.rows.filter fun r => (df.getCell r "annual_amount").isSome
    match valid with
    | [] => ⟨[], [], []⟩
    | _ :: _ =>
        let n := valid.length
        let cLe0 := (valid.filter fun r => nonposNum (df.numCell r "annual_amount")).length
        let cMin := (valid.filter fun r =>
          ltNum (df.numCell r "annual_amount") min_annual_rent).length
        let cMax := (valid.filter fun r =>
          gtNum (df.numCell r "annual_amount") max_annual_rent).length
        ⟨if 0 < cLe0 then [.rentLeZero cLe0] else [],
         (if 0 < cMin then [.rentBelowMin cMin ((cMin : ℚ) / n * 100)] else []) ++
           (if 0 < cMax then [.rentAboveMax cMax ((cMax : ℚ) / n * 100)] else []),
         []⟩

/-- `_validate_property_sizes` (lines 203-235): the same pattern applied to
`actual_area`. -/
def checkPropertySizes (df : DataFrame) : CheckOut :=
  if ¬ df.hasCol "actual_area" then ⟨[], [], []⟩
  else
    let valid := df.rows.filter fun r => (df.getCell r "actual_area").isSome
    match valid with
    | [] => ⟨[], [], []⟩
    | _ :: _ =>
        let n := valid.length
        let cLe0 := (valid.filter fun r => nonposNum (df.numCell r "actual_area")).length
        let cMin := (valid.filter fun r =>
          ltNum (df.numCell r "actual_area") min_property_size).length
        let cMax := (valid.filter fun r =>
          gtNum (df.numCell r "actual_area") max_property_size).length
        ⟨if 0 < cLe0 then [.sizeLeZero cLe0] else [],
         (if 0 < cMin then [.sizeBelowMin cMin ((cMin : ℚ) / n * 100)] else []) ++
           (if 0 < cMax then [.sizeAboveMax cMax ((cMax : ℚ) / n * 100)] else []),
         []⟩

/-- `_validate_dates` (lines 237-249): a warning per present date field with
null values. -/
def checkDates (df : DataFrame) : CheckOut :=
  date_fields.foldl
    (fun acc f =>
      if df.hasCol f then
        let nc := (df.rows.filter fun r => (df.getCell r f).isNone).length
        if 0 < nc then
          ⟨acc.errors, acc.warnings ++ [.nullDates f nc ((nc : ℚ) / df.height * 100)], acc.info⟩
        else acc
      else acc)
    ⟨[], [], []⟩

/-- `_validate_business_logic` (lines 251-288): an error when end dates do
not exceed start dates, warnings for durations outside the configured
bounds. -/
def checkBusinessLogic (df : DataFrame) : CheckOut :=
  if df.hasCol "contract_start_date" && df.hasCol "contract_end_date" then
    let invCount := (df.rows.filter fun r =>
      match df.dateCell r "contract_start_date", df.dateCell r "contract_end_date" with
      | some s, some e => decide (e ≤ s)
      | _, _ => false).length
    let durs := df.rows.filterMap fun r =>
      match df.dateCell r "contract_start_date", df.dateCell r "contract_end_date" with
      | some s, some e => some (e - s)
      | _, _ => none
    let short := (durs.filter fun d => decide (d < min_contract_days)).length
    let long := (durs.filter fun d => decide (max_contract_days < d)).length
    ⟨if 0 < invCount then [.endDateNotAfterStart invCount] else [],
     (if 0 < short then [.contractsTooShort short] else []) ++
       (if 0 < long then [.contractsTooLong long] else []),
     []⟩
  else ⟨[], [], []⟩

/-- `_detect_outliers` (lines 290-324): over non-null positive amounts, with
at least 10 of them, an info message counting values outside
`[Q1 - 3 IQR, Q3 + 3 IQR]`. -/
def checkOutliers (df : DataFrame) : CheckOut :=
  if ¬ df.hasCol "annual_amount" then ⟨[], [], []⟩
  else
    let valid := df.rows.filter fun r => posNum (df.numCell r "annual_amount")
    if valid.length < 10 then ⟨[], [], []⟩
    else
      let vals := valid.filterMap fun r => df.numCell r "annual_amount"
      match quantileNearest vals (1 / 4), quantileNearest vals (3 / 4) with
      | some q1, some q3 =>
          let iqr := q3 - q1
          let oc := (valid.filter fun r =>
            ltNum (df.numCell r "annual_amount") (q1 - 3 * iqr) ||
              gtNum (df.numCell r "annual_amount") (q3 + 3 * iqr)).length
          if 0 < oc then ⟨[], [], [.rentOutliers oc ((oc : ℚ) / valid.length * 100)]⟩
          else ⟨[], [], []⟩
      | _, _ => ⟨[], [], []⟩

/-- `validate_dataframe` (lines 90-131): an empty frame yields the single
error immediately; otherwise the info line and all nine checks run in
order. -/
def validate_dataframe (strict : Bool) (df : DataFrame) : ValidationResult :=
  if df.height = 0 then ⟨[.dataFrameIsEmpty], [], [], false⟩
  else
    let co :=
      [(⟨[], [], [.validatingRecords df.height]⟩ : CheckOut),
       checkSchema df,
       checkRequiredFields df strict,
       checkDataTypes df,
       checkRentAmounts df,
       checkPropertySizes df,
       checkDates df,
       checkBusinessLogic df,
       checkOutliers df].foldl CheckOut.append ⟨[], [], []⟩
    ⟨co.errors, co.warnings, co.info, co.errors.isEmpty⟩

/-! ## Frame-effect relations and concrete input frames -/

/-- `df₁` arises from `df₀` by steps that only touch the columns named in
`ns`: it is well formed, has at least the columns of `df₀`, the same height,
and every cell of a `df₀`-column outside `ns` is unchanged. -/
def PreservesCol (ns : List String) (df₀ df₁ : DataFrame) : Prop :=
  df₁.wellFormed ∧ df₁.height = df₀.height ∧
    (∀ c ∈ df₀.columns, c ∈ df₁.columns) ∧
    (∀ i c, c ∈ df₀.columns → c ∉ ns → df₁.cellAt i c = df₀.cellAt i c)

/-- The names of every column the enricher can add. -/
def enrichAddedNames : List String :=
  ["price_per_sqft", "area_tier", "property_type_normalized", "contract_year",
   "contract_quarter", "contract_month", "contract_weekday", "contract_season",
   "contract_duration_days", "contract_duration_category", "is_luxury",
   "usage_category"]

/-- `df₁` extends the column list of `df₀` on the right with columns named
in `ns` only. -/
def ColsExtOn (ns : List String) (df₀ df₁ : DataFrame) : Prop :=
  ∃ suf, df₁.cols = df₀.cols ++ suf ∧ ∀ p ∈ suf, p.1 ∈ ns

/-- A one-row frame whose area name is "Downtown Dubai". -/
def dfDowntown : DataFrame :=
  ⟨[("area_name_en", .string)], [[some (Value.str "Downtown Dubai")]]⟩

/-- A one-row frame whose raw property type is "Apt". -/
def dfAptType : DataFrame :=
  ⟨[("ejari_property_type_en", .string)], [[some (Value.str "Apt")]]⟩

/-- A one-row frame with a valid area and amount whose usage string is the
lower-case "residential". -/
def dfLowerRes : DataFrame :=
  ⟨[("property_usage_en", .string), ("actual_area", .float64),
    ("annual_amount", .float64)],
   [[some (Value.str "residential"), some (Value.num 1), some (Value.num 120)]]⟩

/-- A two-row frame with both contract dates on the first row and a missing
end date on the second. -/
def dfDuration : DataFrame :=
  ⟨[("contract_start_date", .date), ("contract_end_date", .date)],
   [[some (Value.date 10000), some (Value.date 10365)],
    [some (Value.date 10000), none]]⟩

/-- Witness for C6 at a concrete one-row frame. -/
def dfPsfW : DataFrame :=
  ⟨[("actual_area", .float64), ("annual_amount", .float64)],
   [[some (Value.num 1), some (Value.num 120)]]⟩

/-- A one-row frame that already carries a column named `price_per_sqft`
(value 999) next to a valid area and amount. -/
def dfPsfClash : DataFrame :=
  ⟨[("actual_area", .float64), ("annual_amount", .float64),
    ("price_per_sqft", .float64)],
   [[some (Value.num 1), some (Value.num 5), some (Value.num 999)]]⟩

/-- Rows used by the three-area high-demand example. -/
def rowAreaA : List (Option Value) :=
  [some (Value.str "Area A"), some (Value.num 1), some (Value.num 120),
   some (Value.str "Residential")]

/-- A row of area "Area B". -/
def rowAreaB : List (Option Value) :=
  [some (Value.str "Area B"), some (Value.num 1), some (Value.num 120),
   some (Value.str "Residential")]

/-- A row of area "Area C". -/
def rowAreaC : List (Option Value) :=
  [some (Value.str "Area C"), some (Value.num 1), some (Value.num 120),
   some (Value.str "Residential")]

/-- A row with a null amount, excluded by the PSF validity filter. -/
def rowNoAmount : List (Option Value) :=
  [some (Value.str "Area A"), some (Value.num 1), none,
   some (Value.str "Residential")]

/-- 30 rows: 12 of area A, 10 of area B, 5 of area C (below the minimum
sample size of 10), 3 with a null amount. -/
def dfThreeAreas : DataFrame :=
  ⟨[("area_name_en", .string), ("actual_area", .float64),
    ("annual_amount", .float64), ("property_usage_en", .string)],
   List.replicate 12 rowAreaA ++ List.replicate 10 rowAreaB ++
     List.replicate 5 rowAreaC ++ List.replicate 3 rowNoAmount⟩

/-- A one-row frame with a positive amount and a usage but no property-type
column at all. -/
def dfUsageOnly : DataFrame :=
  ⟨[("annual_amount", .float64), ("property_usage_en", .string)],
   [[some (Value.num 100), some (Value.str "Residential")]]⟩

/-- A one-row frame with a positive amount, a usage and a property type. -/
def dfWithType : DataFrame :=
  ⟨[("annual_amount", .float64), ("property_usage_en", .string),
    ("ejari_property_type_en", .string)],
   [[some (Value.num 100), some (Value.str "Residential"),
     some (Value.str "Unit")]]⟩

/-! ## Basic lemmas about the frame model -/

theorem list_get?_set_self {α : Type} (l : List α) (i : ℕ) (a : α) (h : i < l.length) :
    (l.set i a).get? i = some a := by
  induction l generalizing i with
  | nil => simp at h
  | cons x xs ih =>
      cases i with
      | zero => rfl
      | succ j => simpa using ih j (by simpa using h)

theorem list_get?_set_other {α : Type} (l : List α) (i j : ℕ) (a : α) (h : i ≠ j) :
    (l.set i a).get? j = l.get? j := by
  induction l generalizing i j with
  | nil => simp
  | cons x xs ih =>
      cases i with
      | zero =>
          cases j with
          | zero => exact absurd rfl h
          | succ m => rfl
      | succ n =>
          cases j with
          | zero => rfl
          | succ m => simpa using ih n m (by omega)

theorem list_set_get_self {α : Type} (l : List α) (i : ℕ) (a : α)
    (h : l.get? i = some a) : l.set i a = l := by
  induction l generalizing i with
  | nil => rfl
  | cons x xs ih =>
      cases i with
      | zero => simp_all
      | succ n => simpa using ih n (by simpa using h)

theorem colIndex_get? {c : String} {l : List String} {i : ℕ}
    (h : colIndex c l = some i) : l.get? i = some c := by
  induction l generalizing i with
  | nil => simp [colIndex] at h
  | cons x xs ih =>
      by_cases hx : x = c
      · simp [colIndex, hx] at h
        simp [← h, hx]
      · simp [colIndex, hx] at h
        obtain ⟨j, hj, rfl⟩ := h
        simpa using ih hj

theorem colIndex_lt {c : String} {l : List String} {i : ℕ}
    (h : colIndex c l = some i) : i < l.length :=
  List.get?_eq_some.1 (colIndex_get? h) |>.1

theorem colIndex_eq_none {c : String} {l : List String} :
    colIndex c l = none ↔ c ∉ l := by
  induction l with
  | nil => simp [colIndex]
  | cons x xs ih =>
      by_cases hx : x = c
      · simp [colIndex, hx]
      · simp [colIndex, hx, ih, Option.map_eq_none]
        exact fun _ hc => hx hc.symm

theorem colIndex_append_left {c : String} {l : List String} {i : ℕ}
    (h : colIndex c l = some i) (m : List String) :
    colIndex c (l ++ m) = some i := by
  induction l generalizing i with
  | nil => simp [colIndex] at h
  | cons x xs ih =>
      by_cases hx : x = c
      · simp [colIndex, hx] at h ⊢
        exact h
      · simp [colIndex, hx] at h ⊢
        obtain ⟨j, hj, rfl⟩ := h
        exact ⟨j, ih hj, rfl⟩

theorem colIndex_append_fresh {c : String} {l : List String} (h : c ∉ l) :
    colIndex c (l ++ [c]) = some l.length := by
  induction l with
  | nil => simp [colIndex]
  | cons x xs ih =>
      have hx : x ≠ c := fun hxc => h (hxc ▸ List.mem_cons_self x xs)
      have hxs : c ∉ xs := fun hm => h (List.mem_cons_of_mem x hm)
      simp [colIndex, hx, ih hxs]

theorem hasCol_iff {df : DataFrame} {c : String} :
    df.hasCol c = true ↔ c ∈ df.columns := by
  simp [DataFrame.hasCol, List.contains_iff_exists_mem_beq, beq_iff_eq]

theorem columns_length (df : DataFrame) : df.columns.length = df.cols.length :=
  List.length_map _ _

theorem withColumnMap_height (df : DataFrame) (name : String) (dt : DType)
    (f : List (Option Value) → Option Value) :
    (df.withColumnMap name dt f).height = df.height := by
  unfold DataFrame.withColumnMap DataFrame.withColumn
  cases colIndex name df.columns <;>
    simp [DataFrame.height, List.length_zipWith, List.length_map]

theorem withColumnMap_rows_replace {df : DataFrame} {name : String} {j : ℕ}
    (h : colIndex name df.columns = some j) (dt : DType)
    (f : List (Option Value) → Option Value) :
    (df.withColumnMap name dt f).rows = df.rows.map fun r => r.set j (f r) := by
  unfold DataFrame.withColumnMap DataFrame.withColumn
  rw [h]
  simp [List.zipWith_map_right, List.zipWith_same]

theorem withColumnMap_rows_append {df : DataFrame} {name : String}
    (h : colIndex name df.columns = none) (dt : DType)
    (f : List (Option Value) → Option Value) :
    (df.withColumnMap name dt f).rows = df.rows.map fun r => r ++ [f r] := by
  unfold DataFrame.withColumnMap DataFrame.withColumn
  rw [h]
  simp [List.zipWith_map_right, List.zipWith_same]

theorem withColumnMap_columns_replace {df : DataFrame} {name : String} {j : ℕ}
    (h : colIndex name df.columns = some j) (dt : DType)
    (f : List (Option Value) → Option Value) :
    (df.withColumnMap name dt f).columns = df.columns := by
  unfold DataFrame.withColumnMap DataFrame.withColumn
  rw [h]
  show (df.cols.set j (name, dt)).map Prod.fst = df.columns
  rw [List.map_set]
  exact list_set_get_self _ _ _ (colIndex_get? h)

theorem withColumnMap_cols_append {df : DataFrame} {name : String}
    (h : colIndex name df.columns = none) (dt : DType)
    (f : List (Option Value) → Option Value) :
    (df.withColumnMap name dt f).cols = df.cols ++ [(name, dt)] := by
  unfold DataFrame.withColumnMap DataFrame.withColumn
  rw [h]

theorem withColumnMap_columns_superset {df : DataFrame} {name : String} (dt : DType)
    (f : List (Option Value) → Option Value) {c : String} (hc : c ∈ df.columns) :
    c ∈ (df.withColumnMap name dt f).columns := by
  cases h : colIndex name df.columns with
  | some j => rw [withColumnMap_columns_replace h]; exact hc
  | none =>
      have := withColumnMap_cols_append h dt f
      show c ∈ ((df.withColumnMap name dt f).cols).map Prod.fst
      rw [this]
      simp [DataFrame.columns] at hc ⊢
      exact Or.inl hc

theorem withColumnMap_wf {df : DataFrame} (hwf : df.wellFormed) (name : String)
    (dt : DType) (f : List (Option Value) → Option Value) :
    (df.withColumnMap name dt f).wellFormed := by
  obtain ⟨hlen, hnd⟩ := hwf
  cases h : colIndex name df.columns with
  | some j =>
      constructor
      · intro r hr
        rw [withColumnMap_rows_replace h] at hr
        obtain ⟨r₀, hr₀, rfl⟩ := List.mem_map.1 hr
        have : (df.withColumnMap name dt f).cols.length = df.cols.length := by
          unfold DataFrame.withColumnMap DataFrame.withColumn
          rw [h]
          simp
        rw [this, List.length_set]
        exact hlen r₀ hr₀
      · rw [withColumnMap_columns_replace h]
        exact hnd
  | none =>
      constructor
      · intro r hr
        rw [withColumnMap_rows_append h] at hr
        obtain ⟨r₀, hr₀, rfl⟩ := List.mem_map.1 hr
        rw [withColumnMap_cols_append h]
        simp [hlen r₀ hr₀]
      · show ((df.withColumnMap name dt f).cols.map Prod.fst).Nodup
        rw [withColumnMap_cols_append h]
        have hfresh : name ∉ df.columns := colIndex_eq_none.1 h
        simp [List.nodup_append, DataFrame.columns] at hnd hfresh ⊢
        exact ⟨hnd, hfresh⟩

theorem withColumnMap_cellAt_self {df : DataFrame} (hwf : df.wellFormed)
    (name : String) (dt : DType) (f : List (Option Value) → Option Value) (i : ℕ) :
    (df.withColumnMap name dt f).cellAt i name = (df.rows.get? i).bind f := by
  obtain ⟨hlen, _⟩ := hwf
  cases h : colIndex name df.columns with
  | some j =>
      unfold DataFrame.cellAt
      rw [withColumnMap_rows_replace h, List.get?_map]
      cases hrow : df.rows.get? i with
      | none => rfl
      | some r =>
          simp only [Option.map_some', Option.bind_some]
          unfold DataFrame.getCell
          rw [withColumnMap_columns_replace h, h]
          have hj : j < r.length := by
            rw [hlen r (List.get?_mem hrow), ← columns_length]
            exact colIndex_lt h
          show ((r.set j (f r)).get? j).getD none = f r
          rw [list_get?_set_self r j (f r) hj]
          rfl
  | none =>
      unfold DataFrame.cellAt
      rw [withColumnMap_rows_append h, List.get?_map]
      cases hrow : df.rows.get? i with
      | none => rfl
      | some r =>
          simp only [Option.map_some', Option.bind_some]
          unfold DataFrame.getCell
          have hcols : (df.withColumnMap name dt f).columns = df.columns ++ [name] := by
            show ((df.withColumnMap name dt f).cols).map Prod.fst = _
            rw [withColumnMap_cols_append h]
            simp [DataFrame.columns]
          rw [hcols, colIndex_append_fresh (colIndex_eq_none.1 h)]
          have hr : r.length = df.columns.length := by
            rw [hlen r (List.get?_mem hrow), columns_length]
          show ((r ++ [f r]).get? df.columns.length).getD none = f r
          rw [← hr, List.get?_concat_length]
          rfl

theorem withColumnMap_cellAt_other {df : DataFrame} (hwf : df.wellFormed)
    {name c : String} (hne : c ≠ name) (dt : DType)
    (f : List (Option Value) → Option Value) (i : ℕ) :
    (df.withColumnMap name dt f).cellAt i c = df.cellAt i c := by
  obtain ⟨hlen, _⟩ := hwf
  cases h : colIndex name df.columns with
  | some j =>
      unfold DataFrame.cellAt
      rw [withColumnMap_rows_replace h, List.get?_map]
      cases hrow : df.rows.get? i with
      | none => rfl
      | some r =>
          simp only [Option.map_some']
          unfold DataFrame.getCell
          rw [withColumnMap_columns_replace h]
          cases hc : colIndex c df.columns with
          | none => rfl
          | some k =>
              have hkj : j ≠ k := by
                intro hjk
                have h1 := colIndex_get? h
                have h2 := colIndex_get? hc
                rw [hjk] at h1
                rw [h1] at h2
                exact hne (Option.some.inj h2).symm
              show ((r.set j (f r)).get? k).getD none = (r.get? k).getD none
              rw [list_get?_set_other r j k (f r) hkj]
  | none =>
      unfold DataFrame.cellAt
      rw [withColumnMap_rows_append h, List.get?_map]
      cases hrow : df.rows.get? i with
      | none => rfl
      | some r =>
          simp only [Option.map_some']
          unfold DataFrame.getCell
          have hcols : (df.withColumnMap name dt f).columns = df.columns ++ [name] := by
            show ((df.withColumnMap name dt f).cols).map Prod.fst = _
            rw [withColumnMap_cols_append h]
            simp [DataFrame.columns]
          rw [hcols]
          cases hc : colIndex c df.columns with
          | none =>
              have : colIndex c (df.columns ++ [name]) = none := by
                rw [colIndex_eq_none]
                intro hmem
                rcases List.mem_append.1 hmem with hl | hr
                · exact colIndex_eq_none.1 hc hl
                · exact hne (List.mem_singleton.1 hr)
              rw [this]
          | some k =>
              rw [colIndex_append_left hc]
              have hk : k < r.length := by
                rw [hlen r (List.get?_mem hrow), ← columns_length]
                exact colIndex_lt hc
              show ((r ++ [f r]).get? k).getD none = (r.get? k).getD none
              rw [List.get?_append hk]

theorem withColumnMap_mem_self (df : DataFrame) (name : String) (dt : DType)
    (f : List (Option Value) → Option Value) :
    name ∈ (df.withColumnMap name dt f).columns := by
  cases h : colIndex name df.columns with
  | some j =>
      rw [withColumnMap_columns_replace h]
      exact List.get?_mem (colIndex_get? h)
  | none =>
      show name ∈ ((df.withColumnMap name dt f).cols).map Prod.fst
      rw [withColumnMap_cols_append h]
      simp

/-! ## Frame-effect lemmas about the enrichment steps -/

theorem preservesCol_refl (ns : List String) {df : DataFrame} (hwf : df.wellFormed) :
    PreservesCol ns df df :=
  ⟨hwf, rfl, fun _ hc => hc, fun _ _ _ _ => rfl⟩

theorem preservesCol_trans {ns ms : List String} {a b c : DataFrame}
    (h1 : PreservesCol ns a b) (h2 : PreservesCol ms b c) :
    PreservesCol (ns ++ ms) a c := by
  refine ⟨h2.1, h2.2.1.trans h1.2.1, fun x hx => h2.2.2.1 x (h1.2.2.1 x hx), ?_⟩
  intro i x hx hnx
  rw [h2.2.2.2 i x (h1.2.2.1 x hx) fun hm => hnx (List.mem_append_right _ hm),
    h1.2.2.2 i x hx fun hm => hnx (List.mem_append_left _ hm)]

theorem preservesCol_mono {ns ms : List String} {a b : DataFrame}
    (h : PreservesCol ns a b) (hsub : ∀ x ∈ ns, x ∈ ms) : PreservesCol ms a b :=
  ⟨h.1, h.2.1, h.2.2.1, fun i c hc hcm =>
    h.2.2.2 i c hc fun hm => hcm (hsub c hm)⟩

theorem preservesCol_withColumnMap {df : DataFrame} (hwf : df.wellFormed)
    (name : String) (dt : DType) (f : List (Option Value) → Option Value) :
    PreservesCol [name] df (df.withColumnMap name dt f) :=
  ⟨withColumnMap_wf hwf name dt f, withColumnMap_height df name dt f,
   fun _ hc => withColumnMap_columns_superset dt f hc,
   fun i c hc hcn =>
     withColumnMap_cellAt_other hwf (by simpa using hcn) dt f i⟩

theorem preservesCol_step {ns : List String} {df₀ df₁ : DataFrame}
    (h : PreservesCol ns df₀ df₁) (name : String) (dt : DType)
    (f : List (Option Value) → Option Value) :
    PreservesCol (ns ++ [name]) df₀ (df₁.withColumnMap name dt f) :=
  preservesCol_trans h (preservesCol_withColumnMap h.1 name dt f)

theorem preservesCol_addPsf {df : DataFrame} (hwf : df.wellFormed) :
    PreservesCol ["price_per_sqft"] df (addPsf df) := by
  unfold addPsf
  split
  · exact preservesCol_withColumnMap hwf _ _ _
  · exact preservesCol_refl _ hwf

theorem preservesCol_addAreaTier {df : DataFrame} (hwf : df.wellFormed) :
    PreservesCol ["area_tier"] df (addAreaTier df) := by
  unfold addAreaTier
  split
  · exact preservesCol_withColumnMap hwf _ _ _
  · exact preservesCol_refl _ hwf

theorem preservesCol_normalizePropertyTypes {df : DataFrame} (hwf : df.wellFormed) :
    PreservesCol ["property_type_normalized"] df (normalizePropertyTypes df) := by
  unfold normalizePropertyTypes
  split
  · exact preservesCol_withColumnMap hwf _ _ _
  · exact preservesCol_refl _ hwf

theorem preservesCol_addTemporalFeatures {df : DataFrame} (hwf : df.wellFormed) :
    PreservesCol
      ["contract_year", "contract_quarter", "contract_month", "contract_weekday",
       "contract_season"] df (addTemporalFeatures df) := by
  unfold addTemporalFeatures
  split
  · exact preservesCol_step (preservesCol_step (preservesCol_step (preservesCol_step
      (preservesCol_withColumnMap hwf _ _ _) _ _ _) _ _ _) _ _ _) _ _ _
  · exact preservesCol_mono (preservesCol_refl [] hwf) (by simp)

theorem preservesCol_addContractDuration {df : DataFrame} (hwf : df.wellFormed) :
    PreservesCol ["contract_duration_days", "contract_duration_category"] df
      (addContractDuration df) := by
  unfold addContractDuration
  split
  · exact preservesCol_step (preservesCol_withColumnMap hwf _ _ _) _ _ _
  · exact preservesCol_mono (preservesCol_refl [] hwf) (by simp)

theorem preservesCol_flagLuxuryProperties {df : DataFrame} (hwf : df.wellFormed) :
    PreservesCol ["is_luxury"] df (flagLuxuryProperties df) := by
  unfold flagLuxuryProperties
  split
  · dsimp only
    split
    · exact preservesCol_withColumnMap hwf _ _ _
    · exact preservesCol_withColumnMap hwf _ _ _
  · exact preservesCol_refl _ hwf

theorem preservesCol_addUsageCategory {df : DataFrame} (hwf : df.wellFormed) :
    PreservesCol ["usage_category"] df (addUsageCategory df) := by
  unfold addUsageCategory
  split
  · exact preservesCol_withColumnMap hwf _ _ _
  · exact preservesCol_refl _ hwf

theorem not_mem_append1 {x y : String} {l : List String} (h1 : x ∉ l) (h2 : x ≠ y) :
    x ∉ l ++ [y] := by
  intro hm
  rcases List.mem_append.1 hm with h | h
  · exact h1 h
  · exact h2 (List.mem_singleton.1 h)

theorem colsExt_refl {ns : List String} {df : DataFrame} : ColsExtOn ns df df :=
  ⟨[], by simp, by simp⟩

theorem colsExt_mono {ns ms : List String} {a b : DataFrame}
    (h : ColsExtOn ns a b) (hsub : ∀ x ∈ ns, x ∈ ms) : ColsExtOn ms a b := by
  obtain ⟨suf, hc, hm⟩ := h
  exact ⟨suf, hc, fun p hp => hsub _ (hm p hp)⟩

theorem colsExt_skip {ns : List String} {a b : DataFrame} (h : ColsExtOn ns a b)
    (ms : List String) : ColsExtOn (ns ++ ms) a b :=
  colsExt_mono h fun _ hy => List.mem_append_left _ hy

theorem colsExt_columns_eq {ns : List String} {a b : DataFrame}
    (h : ColsExtOn ns a b) :
    ∃ sufNames, b.columns = a.columns ++ sufNames ∧ ∀ x ∈ sufNames, x ∈ ns := by
  obtain ⟨suf, hc, hm⟩ := h
  refine ⟨suf.map Prod.fst, ?_, ?_⟩
  · show b.cols.map Prod.fst = a.cols.map Prod.fst ++ suf.map Prod.fst
    rw [hc, List.map_append]
  · intro x hx
    obtain ⟨p, hp, rfl⟩ := List.mem_map.1 hx
    exact hm p hp

theorem colsExt_step {ns : List String} {df₀ df₁ : DataFrame}
    (h : ColsExtOn ns df₀ df₁) {name : String} (hfree : name ∉ df₀.columns)
    (hns : name ∉ ns) (dt : DType) (f : List (Option Value) → Option Value) :
    ColsExtOn (ns ++ [name]) df₀ (df₁.withColumnMap name dt f) := by
  obtain ⟨sufNames, hcols, hsub⟩ := colsExt_columns_eq h
  obtain ⟨suf, hc, hm⟩ := h
  have hfree1 : name ∉ df₁.columns := by
    rw [hcols]
    intro hmem
    rcases List.mem_append.1 hmem with hl | hr
    · exact hfree hl
    · exact hns (hsub _ hr)
  refine ⟨suf ++ [(name, dt)], ?_, ?_⟩
  · rw [withColumnMap_cols_append (colIndex_eq_none.2 hfree1), hc, List.append_assoc]
  · intro p hp
    rcases List.mem_append.1 hp with hl | hr
    · exact List.mem_append_left _ (hm p hl)
    · rw [List.mem_singleton.1 hr]
      exact List.mem_append_right _ (List.mem_singleton.2 (Eq.refl name))

theorem colsExt_addPsf {ns : List String} {df₀ df₁ : DataFrame}
    (h : ColsExtOn ns df₀ df₁) (hfree : "price_per_sqft" ∉ df₀.columns)
    (hns : "price_per_sqft" ∉ ns) :
    ColsExtOn (ns ++ ["price_per_sqft"]) df₀ (addPsf df₁) := by
  unfold addPsf
  split
  · exact colsExt_step h hfree hns _ _
  · exact colsExt_skip h _

theorem colsExt_addAreaTier {ns : List String} {df₀ df₁ : DataFrame}
    (h : ColsExtOn ns df₀ df₁) (hfree : "area_tier" ∉ df₀.columns)
    (hns : "area_tier" ∉ ns) :
    ColsExtOn (ns ++ ["area_tier"]) df₀ (addAreaTier df₁) := by
  unfold addAreaTier
  split
  · exact colsExt_step h hfree hns _ _
  · exact colsExt_skip h _

theorem colsExt_normalizePropertyTypes {ns : List String} {df₀ df₁ : DataFrame}
    (h : ColsExtOn ns df₀ df₁) (hfree : "property_type_normalized" ∉ df₀.columns)
    (hns : "property_type_normalized" ∉ ns) :
    ColsExtOn (ns ++ ["property_type_normalized"]) df₀
      (normalizePropertyTypes df₁) := by
  unfold normalizePropertyTypes
  split
  · exact colsExt_step h hfree hns _ _
  · exact colsExt_skip h _

theorem colsExt_addTemporalFeatures {ns : List String} {df₀ df₁ : DataFrame}
    (h : ColsExtOn ns df₀ df₁)
    (hfree : ∀ x ∈ ["contract_year", "contract_quarter", "contract_month",
      "contract_weekday", "contract_season"], x ∉ df₀.columns)
    (hns : ∀ x ∈ ["contract_year", "contract_quarter", "contract_month",
      "contract_weekday", "contract_season"], x ∉ ns) :
    ColsExtOn
      (ns ++ ["contract_year", "contract_quarter", "contract_month",
        "contract_weekday", "contract_season"]) df₀ (addTemporalFeatures df₁) := by
  unfold addTemporalFeatures
  split
  · refine colsExt_mono (colsExt_step (colsExt_step (colsExt_step (colsExt_step
      (colsExt_step h (hfree "contract_year" (by decide))
        (hns "contract_year" (by decide)) _ _)
      (hfree "contract_quarter" (by decide))
      (not_mem_append1 (hns "contract_quarter" (by decide)) (by decide)) _ _)
      (hfree "contract_month" (by decide))
      (not_mem_append1 (not_mem_append1 (hns "contract_month" (by decide))
        (by decide)) (by decide)) _ _)
      (hfree "contract_weekday" (by decide))
      (not_mem_append1 (not_mem_append1 (not_mem_append1
        (hns "contract_weekday" (by decide)) (by decide)) (by decide))
        (by decide)) _ _)
      (hfree "contract_season" (by decide))
      (not_mem_append1 (not_mem_append1 (not_mem_append1 (not_mem_append1
        (hns "contract_season" (by decide)) (by decide)) (by decide))
        (by decide)) (by decide)) _ _) ?_
    intro x hx
    simp only [List.mem_append, List.mem_singleton, List.mem_cons,
      List.not_mem_nil] at hx ⊢
    tauto
  · exact colsExt_skip h _

theorem colsExt_addContractDuration {ns : List String} {df₀ df₁ : DataFrame}
    (h : ColsExtOn ns df₀ df₁)
    (hfree : ∀ x ∈ ["contract_duration_days", "contract_duration_category"],
      x ∉ df₀.columns)
    (hns : ∀ x ∈ ["contract_duration_days", "contract_duration_category"], x ∉ ns) :
    ColsExtOn (ns ++ ["contract_duration_days", "contract_duration_category"]) df₀
      (addContractDuration df₁) := by
  unfold addContractDuration
  split
  · refine colsExt_mono (colsExt_step
      (colsExt_step h (hfree "contract_duration_days" (by decide))
        (hns "contract_duration_days" (by decide)) _ _)
      (hfree "contract_duration_category" (by decide))
      (not_mem_append1 (hns "contract_duration_category" (by decide))
        (by decide)) _ _) ?_
    intro x hx
    simp only [List.mem_append, List.mem_singleton, List.mem_cons,
      List.not_mem_nil] at hx ⊢
    tauto
  · exact colsExt_skip h _

theorem colsExt_flagLuxuryProperties {ns : List String} {df₀ df₁ : DataFrame}
    (h : ColsExtOn ns df₀ df₁) (hfree : "is_luxury" ∉ df₀.columns)
    (hns : "is_luxury" ∉ ns) :
    ColsExtOn (ns ++ ["is_luxury"]) df₀ (flagLuxuryProperties df₁) := by
  unfold flagLuxuryProperties
  split
  · dsimp only
    split
    · exact colsExt_step h hfree hns _ _
    · exact colsExt_step h hfree hns _ _
  · exact colsExt_skip h _

theorem colsExt_addUsageCategory {ns : List String} {df₀ df₁ : DataFrame}
    (h : ColsExtOn ns df₀ df₁) (hfree : "usage_category" ∉ df₀.columns)
    (hns : "usage_category" ∉ ns) :
    ColsExtOn (ns ++ ["usage_category"]) df₀ (addUsageCategory df₁) := by
  unfold addUsageCategory
  split
  · exact colsExt_step h hfree hns _ _
  · exact colsExt_skip h _

theorem preservesCol_enrich {df : DataFrame} (hwf : df.wellFormed) :
    PreservesCol enrichAddedNames df (enrich df) := by
  unfold enrich
  have h1 := preservesCol_addPsf hwf
  have h2 := preservesCol_trans h1 (preservesCol_addAreaTier h1.1)
  have h3 := preservesCol_trans h2 (preservesCol_normalizePropertyTypes h2.1)
  have h4 := preservesCol_trans h3 (preservesCol_addTemporalFeatures h3.1)
  have h5 := preservesCol_trans h4 (preservesCol_addContractDuration h4.1)
  have h6 := preservesCol_trans h5 (preservesCol_flagLuxuryProperties h5.1)
  have h7 := preservesCol_trans h6 (preservesCol_addUsageCategory h6.1)
  exact preservesCol_mono h7 (by decide)

theorem colsExt_enrich {df : DataFrame}
    (hfresh : ∀ n ∈ enrichAddedNames, n ∉ df.columns) :
    ColsExtOn enrichAddedNames df (enrich df) := by
  unfold enrich
  have e1 := colsExt_addPsf (colsExt_refl : ColsExtOn [] df df)
    (hfresh "price_per_sqft" (by decide)) (by simp)
  have e2 := colsExt_addAreaTier e1 (hfresh "area_tier" (by decide)) (by decide)
  have e3 := colsExt_normalizePropertyTypes e2
    (hfresh "property_type_normalized" (by decide)) (by decide)
  have e4 := colsExt_addTemporalFeatures e3
    (fun x hx => hfresh x (by
      simp only [List.mem_cons, List.not_mem_nil, or_false] at hx
      rcases hx with rfl | rfl | rfl | rfl | rfl <;> decide)) (by decide)
  have e5 := colsExt_addContractDuration e4
    (fun x hx => hfresh x (by
      simp only [List.mem_cons, List.not_mem_nil, or_false] at hx
      rcases hx with rfl | rfl <;> decide)) (by decide)
  have e6 := colsExt_flagLuxuryProperties e5 (hfresh "is_luxury" (by decide))
    (by decide)
  have e7 := colsExt_addUsageCategory e6 (hfresh "usage_category" (by decide))
    (by decide)
  exact colsExt_mono e7 (by decide)

/-- The `price_per_sqft` cell of the enriched frame is the PSF expression of
`_add_psf` evaluated on the corresponding input row. -/
theorem enrich_psf_cell {df : DataFrame} (hwf : df.wellFormed)
    (ha : "actual_area" ∈ df.columns) (hmm : "annual_amount" ∈ df.columns) (i : ℕ) :
    (enrich df).cellAt i "price_per_sqft" =
      (df.rows.get? i).bind fun r =>
        (psfValue (df.numCell r "annual_amount") (df.numCell r "actual_area")).map
          Value.num := by
  have haddPsf : addPsf df = df.withColumnMap "price_per_sqft" DType.float64
      fun r => (psfValue (df.numCell r "annual_amount")
        (df.numCell r "actual_area")).map Value.num := by
    unfold addPsf
    rw [hasCol_iff.2 ha, hasCol_iff.2 hmm]
    rfl
  unfold enrich
  rw [haddPsf]
  have key : ∀ d1 : DataFrame, d1.wellFormed → "price_per_sqft" ∈ d1.columns →
      (addUsageCategory (flagLuxuryProperties (addContractDuration
        (addTemporalFeatures (normalizePropertyTypes
          (addAreaTier d1)))))).cellAt i "price_per_sqft" =
        d1.cellAt i "price_per_sqft" := by
    intro d1 hwf1 hmem
    have t1 := preservesCol_addAreaTier hwf1
    have t2 := preservesCol_trans t1 (preservesCol_normalizePropertyTypes t1.1)
    have t3 := preservesCol_trans t2 (preservesCol_addTemporalFeatures t2.1)
    have t4 := preservesCol_trans t3 (preservesCol_addContractDuration t3.1)
    have t5 := preservesCol_trans t4 (preservesCol_flagLuxuryProperties t4.1)
    have t6 := preservesCol_trans t5 (preservesCol_addUsageCategory t5.1)
    exact t6.2.2.2 i _ hmem (by decide)
  rw [key _ (withColumnMap_wf hwf _ _ _) (withColumnMap_mem_self df _ _ _)]
  exact withColumnMap_cellAt_self hwf _ _ _ i

set_option maxHeartbeats 1600000 in
/-- The `contract_duration_category` cell of the enriched frame is the
category of the whole-day date difference of the corresponding input row. -/
theorem enrich_duration_category_cell {df : DataFrame} (hwf : df.wellFormed)
    (hs : "contract_start_date" ∈ df.columns)
    (he : "contract_end_date" ∈ df.columns) (i : ℕ) (hi : i < df.height) :
    (enrich df).cellAt i "contract_duration_category" =
      some (Value.str (durationCategory
        (match asDate (df.cellAt i "contract_start_date"),
            asDate (df.cellAt i "contract_end_date") with
         | some s, some e => some (((e - s : ℤ) : ℚ))
         | _, _ => none))) := by
  unfold enrich
  have pf1 := preservesCol_addPsf hwf
  have pf2 := preservesCol_trans pf1 (preservesCol_addAreaTier pf1.1)
  have pf3 := preservesCol_trans pf2 (preservesCol_normalizePropertyTypes pf2.1)
  have pfront := preservesCol_trans pf3 (preservesCol_addTemporalFeatures pf3.1)
  set front := addTemporalFeatures (normalizePropertyTypes (addAreaTier (addPsf df)))
    with hfront
  have hwfF : front.wellFormed := pfront.1
  have hcs : "contract_start_date" ∈ front.columns := pfront.2.2.1 _ hs
  have hce : "contract_end_date" ∈ front.columns := pfront.2.2.1 _ he
  have hsv : front.cellAt i "contract_start_date" = df.cellAt i "contract_start_date" :=
    pfront.2.2.2 i _ hs (by decide)
  have hev : front.cellAt i "contract_end_date" = df.cellAt i "contract_end_date" :=
    pfront.2.2.2 i _ he (by decide)
  have hhF : front.height = df.height := pfront.2.1
  have hdur : addContractDuration front =
      (front.withColumnMap "contract_duration_days" DType.int64 fun r =>
        match front.dateCell r "contract_start_date",
            front.dateCell r "contract_end_date" with
        | some s, some e => some (Value.num ((e - s : ℤ) : ℚ))
        | _, _ => none).withColumnMap "contract_duration_category" DType.string
          fun r =>
            some (Value.str (durationCategory
              ((front.withColumnMap "contract_duration_days" DType.int64 fun r =>
                match front.dateCell r "contract_start_date",
                    front.dateCell r "contract_end_date" with
                | some s, some e => some (Value.num ((e - s : ℤ) : ℚ))
                | _, _ => none).numCell r "contract_duration_days"))) := by
    unfold addContractDuration
    rw [hasCol_iff.2 hcs, hasCol_iff.2 hce]
    rfl
  rw [hdur]
  set d5a := front.withColumnMap "contract_duration_days" DType.int64 fun r =>
    match front.dateCell r "contract_start_date",
        front.dateCell r "contract_end_date" with
    | some s, some e => some (Value.num ((e - s : ℤ) : ℚ))
    | _, _ => none with hd5a
  have hwf5a : d5a.wellFormed := withColumnMap_wf hwfF _ _ _
  set d5b := d5a.withColumnMap "contract_duration_category" DType.string fun r =>
    some (Value.str (durationCategory (d5a.numCell r "contract_duration_days")))
    with hd5b
  have hwf5b : d5b.wellFormed := withColumnMap_wf hwf5a _ _ _
  have hmem5b : "contract_duration_category" ∈ d5b.columns :=
    withColumnMap_mem_self d5a _ _ _
  have htail : (addUsageCategory (flagLuxuryProperties d5b)).cellAt i
      "contract_duration_category" = d5b.cellAt i "contract_duration_category" := by
    have u1 := preservesCol_flagLuxuryProperties hwf5b
    have u2 := preservesCol_trans u1 (preservesCol_addUsageCategory u1.1)
    exact u2.2.2.2 i _ hmem5b (by decide)
  rw [htail, hd5b, withColumnMap_cellAt_self hwf5a _ _ _ i]
  have hi5a : i < d5a.rows.length := by
    have hh : d5a.height = front.height := withColumnMap_height front _ _ _
    show i < d5a.height
    rw [hh, hhF]
    exact hi
  have hr : d5a.rows.get? i = some (d5a.rows.get ⟨i, hi5a⟩) := List.get?_eq_get hi5a
  rw [hr]
  show some (Value.str (durationCategory
    (d5a.numCell (d5a.rows.get ⟨i, hi5a⟩) "contract_duration_days"))) = _
  have hcell : d5a.numCell (d5a.rows.get ⟨i, hi5a⟩) "contract_duration_days" =
      asNum (d5a.cellAt i "contract_duration_days") := by
    unfold DataFrame.numCell DataFrame.cellAt
    rw [hr]
  rw [hcell, hd5a, withColumnMap_cellAt_self hwfF _ _ _ i]
  have hiF : i < front.rows.length := by
    show i < front.height
    rw [hhF]
    exact hi
  rw [List.get?_eq_get hiF]
  have hcs2 : front.dateCell (front.rows.get ⟨i, hiF⟩) "contract_start_date" =
      asDate (df.cellAt i "contract_start_date") := by
    rw [← hsv]
    unfold DataFrame.cellAt DataFrame.dateCell
    rw [List.get?_eq_get hiF]
  have hce2 : front.dateCell (front.rows.get ⟨i, hiF⟩) "contract_end_date" =
      asDate (df.cellAt i "contract_end_date") := by
    rw [← hev]
    unfold DataFrame.cellAt DataFrame.dateCell
    rw [List.get?_eq_get hiF]
  show some (Value.str (durationCategory (asNum (match
    front.dateCell (front.rows.get ⟨i, hiF⟩) "contract_start_date",
    front.dateCell (front.rows.get ⟨i, hiF⟩) "contract_end_date" with
    | some s, some e => some (Value.num ((e - s : ℤ) : ℚ))
    | _, _ => none)))) = _
  rw [hcs2, hce2]
  cases asDate (df.cellAt i "contract_start_date") with
  | none => rfl
  | some s =>
      cases asDate (df.cellAt i "contract_end_date") with
      | none => rfl
      | some e => rfl

/-! ## Claim theorems -/

/-- C1: the spec says the enricher derives `area_tier` by looking the area
name up in `AREA_CLASSIFICATIONS` with "Mid-Tier" only as the default for
unknown names, so a "Downtown Dubai" row gets "Premium".  The config lookup
`get_area_tier` indeed classifies "Downtown Dubai" as Premium, but
`_add_area_tier` assigns the literal "Mid-Tier" to every row (the lookup is
an unimplemented TODO in the source), so the enriched cell is "Mid-Tier",
not "Premium": the code contradicts the spec and its own TODO comment. -/
theorem C1_area_tier_constant_not_lookup :
    get_area_tier "Downtown Dubai" = AreaTier.premium ∧
    AreaTier.premium.value = "Premium" ∧
    (enrich dfDowntown).cellAt 0 "area_tier" = some (Value.str "Mid-Tier") ∧
    ("Mid-Tier" : String) ≠ "Premium" :=
  ⟨by decide, rfl, by decide, by decide⟩

/-- C2: the spec says the enricher's normalized property type is the
lower-cased, trimmed raw value mapped through `PROPERTY_TYPE_MAPPINGS`
("apt" becomes "Apartment") with title-casing as fallback, never the
verbatim lower-cased string.  The config function `normalize_property_type`
does exactly that, but `_normalize_property_types` only lower-cases and
strips without ever applying it (although the enricher imports it), so an
"Apt" row is normalized to the verbatim "apt" instead of "Apartment". -/
theorem C2_property_type_left_verbatim_lowercase :
    (enrich dfAptType).cellAt 0 "property_type_normalized" =
      some (Value.str "apt") ∧
    normalize_property_type (some "Apt") = "Apartment" ∧
    normalize_property_type (some "my custom type") = "My Custom Type" ∧
    ("apt" : String) ≠ "Apartment" :=
  ⟨by decide, by decide, by decide, by decide⟩

/-- C5: `is_residential` / `is_commercial` are exact, case-sensitive
membership tests, so the PSF filter as written would drop a row whose usage
merely contains "residential" (e.g. lower-case "residential") even though
the enricher's substring-based `usage_category` calls it Residential — but
the code never even reaches that point: `calculate_psf_metrics` passes the
polars expression `pl.col("property_usage_en")` to `is_residential`, whose
Python `in` test truth-tests an `Expr` and raises `TypeError` whenever at
least one valid row exists. -/
theorem C5_psf_filter_membership_vs_enricher :
    is_residential "residential" = false ∧
    is_residential "Residential Flats" = false ∧
    is_residential "Residential" = true ∧
    usageCategoryOf (some "residential") = "Residential" ∧
    usageCategoryOf (some "Residential Flats") = "Residential" ∧
    psfFilterKeep (some "residential") (some 120) = false ∧
    psfFilterKeep (some "Residential") (some 120) = true ∧
    calculate_psf_metrics dfLowerRes = .error .typeErrorExprTruthValue :=
  ⟨by decide, by decide, by decide, by decide, by decide, by decide, by decide, rfl⟩

/-- C6: for a frame with both the amount and area columns, the enriched
`price_per_sqft` cell of each row is exactly the guarded ratio `psfValue`:
equal to amount/area when both are non-null and strictly positive, null
whenever either is null or non-positive, and never zero or negative. -/
theorem C6_psf_exact_ratio_or_null (df : DataFrame) (hwf : df.wellFormed)
    (ha : "actual_area" ∈ df.columns) (hmm : "annual_amount" ∈ df.columns)
    (i : ℕ) :
    (enrich df).cellAt i "price_per_sqft" =
      ((df.rows.get? i).bind fun r =>
        (psfValue (df.numCell r "annual_amount") (df.numCell r "actual_area")).map
          Value.num) ∧
    (∀ a ar : ℚ, 0 < a → 0 < ar → psfValue (some a) (some ar) = some (a / ar)) ∧
    (∀ a ar : Option ℚ, psfValue a ar = none ↔
      ¬ ∃ x y : ℚ, a = some x ∧ ar = some y ∧ 0 < x ∧ 0 < y) ∧
    (∀ (a ar : Option ℚ) (q : ℚ), psfValue a ar = some q → 0 < q) := by
  have hred : ∀ x y : ℚ, psfValue (some x) (some y) =
      if 0 < y ∧ 0 < x then some (x / y) else none := fun _ _ => rfl
  refine ⟨enrich_psf_cell hwf ha hmm i, ?_, ?_, ?_⟩
  · intro a ar ha0 har0
    rw [hred, if_pos ⟨har0, ha0⟩]
  · intro a ar
    cases a with
    | none =>
        refine ⟨fun _ => ?_, fun _ => rfl⟩
        rintro ⟨x, y, hx, hy, hx0, hy0⟩
        exact Option.noConfusion hx
    | some x =>
        cases ar with
        | none =>
            refine ⟨fun _ => ?_, fun _ => rfl⟩
            rintro ⟨x1, y1, hx, hy, hx0, hy0⟩
            exact Option.noConfusion hy
        | some y =>
            rw [hred]
            split
            · rename_i hpos
              constructor
              · intro hcontra
                exact Option.noConfusion hcontra
              · intro hne
                exact absurd ⟨x, y, rfl, rfl, hpos.2, hpos.1⟩ hne
            · rename_i hneg
              simp only [true_iff]
              rintro ⟨x1, y1, hx1, hy1, hx0, hy0⟩
              cases Option.some.inj hx1
              cases Option.some.inj hy1
              exact hneg ⟨hy0, hx0⟩
  · intro a ar q h
    cases a with
    | none => exact Option.noConfusion h
    | some x =>
        cases ar with
        | none => exact Option.noConfusion h
        | some y =>
            rw [hred] at h
            split at h
            · rename_i hpos
              cases Option.some.inj h
              exact div_pos hpos.2 hpos.1
            · exact Option.noConfusion h

theorem C6_psf_exact_ratio_or_null_witness :
    (enrich dfPsfW).cellAt 0 "price_per_sqft" =
      ((dfPsfW.rows.get? 0).bind fun r =>
        (psfValue (dfPsfW.numCell r "annual_amount")
          (dfPsfW.numCell r "actual_area")).map Value.num) ∧
    psfValue (some 120) (some 1) = some (120 / 1) :=
  ⟨(C6_psf_exact_ratio_or_null dfPsfW (by decide) (by decide) (by decide) 0).1,
   (C6_psf_exact_ratio_or_null dfPsfW (by decide) (by decide) (by decide) 0).2.1
     120 1 (by decide) (by decide)⟩

/-- C10: the duration category of the enriched frame satisfies the exact
boundaries 179 days short, 180 and 364 medium, 365 long, and a row with a
missing date (hence missing duration) is categorized "Unknown". -/
theorem C10_duration_category_boundaries (df : DataFrame) (hwf : df.wellFormed)
    (hs : "contract_start_date" ∈ df.columns)
    (he : "contract_end_date" ∈ df.columns) (i : ℕ) (hi : i < df.height) :
    ((∀ s e : ℤ, df.cellAt i "contract_start_date" = some (Value.date s) →
        df.cellAt i "contract_end_date" = some (Value.date e) →
        (enrich df).cellAt i "contract_duration_category" =
          some (Value.str (durationCategory (some ((e - s : ℤ) : ℚ))))) ∧
      ((asDate (df.cellAt i "contract_start_date") = none ∨
          asDate (df.cellAt i "contract_end_date") = none) →
        (enrich df).cellAt i "contract_duration_category" =
          some (Value.str "Unknown"))) ∧
    durationCategory (some 179) = "Short-term" ∧
    durationCategory (some 180) = "Medium-term" ∧
    durationCategory (some 364) = "Medium-term" ∧
    durationCategory (some 365) = "Long-term" ∧
    durationCategory none = "Unknown" := by
  refine ⟨⟨?_, ?_⟩, by decide, by decide, by decide, by decide, rfl⟩
  · intro s e hsv hev
    rw [enrich_duration_category_cell hwf hs he i hi, hsv, hev]
    rfl
  · intro h
    rw [enrich_duration_category_cell hwf hs he i hi]
    rcases h with h | h
    · rw [h]
      rfl
    · rw [h]
      cases hq : asDate (df.cellAt i "contract_start_date") <;> rfl

/-- C7 counterexample: enrichment does not leave every input column
unchanged — an input column named like a derived column is overwritten.
`_add_psf` replaces the pre-existing `price_per_sqft` value 999 with the
computed ratio 5. -/
theorem C7_counterexample_derived_name_overwritten :
    dfPsfClash.cellAt 0 "price_per_sqft" = some (Value.num 999) ∧
    (enrich dfPsfClash).cellAt 0 "price_per_sqft" = some (Value.num (5 / 1)) ∧
    (Value.num (5 / 1) : Value) ≠ Value.num 999 := by
  refine ⟨by decide, ?_, ?_⟩ <;> with_unfolding_all decide

/-- C7 (amended): for every well-formed input frame none of whose columns is
named like a derived column, `enrich` keeps the number and order of rows,
keeps every input column with unchanged cells, and only appends new columns
on the right. -/
theorem C7_enrich_is_column_additive (df : DataFrame) (hwf : df.wellFormed)
    (hfresh : ∀ n ∈ enrichAddedNames, n ∉ df.columns) :
    (enrich df).height = df.height ∧ (enrich df).wellFormed ∧
    (∃ suf, (enrich df).cols = df.cols ++ suf ∧
      ∀ p ∈ suf, p.1 ∈ enrichAddedNames) ∧
    (∀ i c, c ∈ df.columns → (enrich df).cellAt i c = df.cellAt i c) := by
  have hp := preservesCol_enrich hwf
  refine ⟨hp.2.1, hp.1, colsExt_enrich hfresh, ?_⟩
  intro i c hcm
  exact hp.2.2.2 i c hcm fun hmem => hfresh c hmem hcm

theorem C7_enrich_is_column_additive_witness :
    (enrich dfLowerRes).height = dfLowerRes.height ∧
    (enrich dfLowerRes).cellAt 0 "property_usage_en" =
      dfLowerRes.cellAt 0 "property_usage_en" :=
  ⟨(C7_enrich_is_column_additive dfLowerRes (by decide) (by decide)).1,
   (C7_enrich_is_column_additive dfLowerRes (by decide) (by decide)).2.2.2
     0 "property_usage_en" (by decide)⟩

/-- `calculate_psf_metrics` can only succeed with the empty frame: every
non-trivial run reaches the broken usage filter and raises. -/
theorem calculate_psf_metrics_ok_empty {df d : DataFrame}
    (h : calculate_psf_metrics df = .ok d) : d = emptyDataFrame := by
  unfold calculate_psf_metrics at h
  split at h
  · exact (Except.ok.inj h).symm
  · dsimp only at h
    split at h
    · exact (Except.ok.inj h).symm
    · exact Except.noConfusion h

/-- Consequently `analyze_by_area` never returns a qualifying area: it
either raises or returns the empty result. -/
theorem analyze_by_area_never_returns_areas (df : DataFrame) (c : String)
    (stats : List AreaStats) (h : analyze_by_area df c = .ok stats) :
    stats = [] := by
  unfold analyze_by_area at h
  split at h
  · exact (Except.ok.inj h).symm
  · split at h
    · exact Except.noConfusion h
    · rename_i psfData hm
      have hd := calculate_psf_metrics_ok_empty hm
      subst hd
      split at h
      · exact (Except.ok.inj h).symm
      · rename_i hne
        exact absurd rfl hne

set_option maxRecDepth 100000 in
/-- C3: on the code as written, `identify_high_demand_areas` raises the
`TypeError` of the PSF usage filter on any dataset with a qualifying row, so
by-area analysis can never return a qualifying area (see
`analyze_by_area_never_returns_areas`); under the row-wise reading of that
filter — the computation the spec describes — the operation returns the top
`n` of the by-area result and a market share of count over the total of ALL
qualifying areas (22 = 12 + 10 here, area C being under the minimum sample
size): 12/22·100, which differs both from the share against the unfiltered
grand total of 30 rows and from a share computed against the top-1 rows
alone. -/
theorem C3_high_demand_share_denominator :
    identify_high_demand_areas dfThreeAreas "area_name_en" 20 =
      .error .typeErrorExprTruthValue ∧
    (identifyHighDemandAreasRowwise dfThreeAreas "area_name_en" 1).map
      (fun g => (g.stats.area, g.stats.contract_count, g.market_share_pct)) =
      [(some (Value.str "Area A"), 12, (12 : ℚ) / 22 * 100)] ∧
    ((12 : ℚ) / 22 * 100) ≠ (12 : ℚ) / 30 * 100 ∧
    ((12 : ℚ) / 22 * 100) ≠ (12 : ℚ) / 12 * 100 := by
  refine ⟨rfl, ?_, ?_, ?_⟩ <;> with_unfolding_all decide

theorem mem_distinctKeys {α : Type} [DecidableEq α] {a : α} {l : List α} :
    a ∈ distinctKeys l ↔ a ∈ l := by
  induction l with
  | nil => simp [distinctKeys]
  | cons x xs ih =>
      by_cases hax : a = x
      · subst hax
        simp [distinctKeys]
      · simp [distinctKeys, List.mem_cons, List.mem_filter, ih, hax,
          decide_eq_true_eq]

theorem groupByKey_covers {α κ : Type} [DecidableEq κ] (key : α → κ)
    {xs : List α} {x : α} (hx : x ∈ xs) :
    ∃ g ∈ groupByKey key xs, g.2 ≠ [] := by
  refine ⟨(key x, xs.filter fun y => decide (key y = key x)), ?_, ?_⟩
  · unfold groupByKey
    exact List.mem_map.2 ⟨key x,
      mem_distinctKeys.2 (List.mem_map.2 ⟨x, hx, rfl⟩), rfl⟩
  · exact List.ne_nil_of_mem (List.mem_filter.2 ⟨hx, by simp⟩)

theorem nat_mem_le_sum {l : List ℕ} {x : ℕ} (h : x ∈ l) : x ≤ l.sum := by
  induction l with
  | nil => cases h
  | cons a as ih =>
      rcases List.mem_cons.1 h with rfl | hm
      · simp [List.sum_cons]
      · rw [List.sum_cons]
        exact le_trans (ih hm) (Nat.le_add_left _ _)

/-- With at least one row of non-null positive amount, the summed contract
count over the rent groups is non-zero. -/
theorem rentGroupsBy_total_pos (df : DataFrame) (keyCol : String)
    (h : ∃ r ∈ df.rows, posNum (df.numCell r "annual_amount") = true) :
    ((rentGroupsBy df keyCol).map (·.contract_count)).sum ≠ 0 := by
  obtain ⟨r, hr, hpos⟩ := h
  have hrv : r ∈ df.rows.filter fun r => posNum (df.numCell r "annual_amount") :=
    List.mem_filter.2 ⟨hr, hpos⟩
  obtain ⟨g, hg, hgne⟩ := groupByKey_covers (fun r => df.getCell r keyCol) hrv
  intro hzero
  have hmem : g.2.length ∈ (rentGroupsBy df keyCol).map (·.contract_count) := by
    unfold rentGroupsBy
    dsimp only
    refine List.mem_map.2 ⟨_, (List.perm_insertionSort _ _).mem_iff.2
      (List.mem_map.2 ⟨g, hg, rfl⟩), rfl⟩
  have hle := nat_mem_le_sum hmem
  rw [hzero] at hle
  exact hgne (List.length_eq_zero.1 (Nat.le_zero.1 hle))

/-- The percentages attached by `addMarketShare` sum to exactly 100 whenever
the total count is non-zero. -/
theorem addMarketShare_sum (gs : List RentGroupStats)
    (h : (gs.map (·.contract_count)).sum ≠ 0) :
    ((addMarketShare gs).map (·.market_share_pct)).sum = 100 := by
  unfold addMarketShare
  dsimp only
  rw [List.map_map]
  have hstep : ((fun x : RentGroupShare => x.market_share_pct) ∘
      fun g : RentGroupStats =>
        ({ stats := g,
           market_share_pct := (g.contract_count : ℚ) /
             ((gs.map (·.contract_count)).sum : ℕ) * 100 } : RentGroupShare)) =
      fun g : RentGroupStats => (g.contract_count : ℚ) *
        (100 / ((gs.map (·.contract_count)).sum : ℕ)) := by
    funext g
    show (g.contract_count : ℚ) / ((gs.map (·.contract_count)).sum : ℕ) * 100 = _
    ring
  rw [hstep, List.sum_map_mul_right]
  have hcast : (gs.map fun g : RentGroupStats => (g.contract_count : ℚ)).sum =
      (((gs.map (·.contract_count)).sum : ℕ) : ℚ) := by
    rw [Nat.cast_list_sum, List.map_map]
    rfl
  rw [hcast]
  have hT0 : ((((gs.map (·.contract_count)).sum : ℕ)) : ℚ) ≠ 0 :=
    Nat.cast_ne_zero.2 h
  rw [mul_comm, div_mul_eq_mul_div, mul_div_assoc, div_self hT0, mul_one]

/-- C4 counterexample: a dataset with a row of non-null positive amount but
no `ejari_property_type_en` and no `ejari_property_sub_type_en` column makes
`analyze_by_property_type` return the empty result, whose market-share
percentages sum to 0, not 100. -/
theorem C4_counterexample_no_type_column :
    (∃ r ∈ dfUsageOnly.rows,
      posNum (dfUsageOnly.numCell r "annual_amount") = true) ∧
    ((analyze_by_property_type dfUsageOnly).map (·.market_share_pct)).sum = 0 ∧
    ((0 : ℚ)) ≠ 100 :=
  ⟨by decide, rfl, by norm_num⟩

/-- C4 (amended): with at least one row of non-null positive amount, the
usage-segmentation market shares always sum to exactly 100; the
property-type shares sum to exactly 100 as well provided the primary or
fall-back type column is present (with neither, the analysis returns the
empty result). -/
theorem C4_market_share_sums_to_100 (df : DataFrame)
    (h : ∃ r ∈ df.rows, posNum (df.numCell r "annual_amount") = true) :
    ((segment_by_usage df).map (·.market_share_pct)).sum = 100 ∧
    ((df.hasCol "ejari_property_type_en" = true ∨
        df.hasCol "ejari_property_sub_type_en" = true) →
      ((analyze_by_property_type df).map (·.market_share_pct)).sum = 100) := by
  constructor
  · exact addMarketShare_sum _ (rentGroupsBy_total_pos df _ h)
  · intro hcol
    unfold analyze_by_property_type
    have hcontra : (df.rows.filter fun r =>
        posNum (df.numCell r "annual_amount")) = [] → False := by
      intro hf
      obtain ⟨r, hr, hpos⟩ := h
      have hm : r ∈ df.rows.filter fun r =>
          posNum (df.numCell r "annual_amount") :=
        List.mem_filter.2 ⟨hr, hpos⟩
      rw [hf] at hm
      cases hm
    dsimp only
    by_cases h1 : df.hasCol "ejari_property_type_en" = true
    · rw [if_pos h1]
      cases hf : df.rows.filter fun r => posNum (df.numCell r "annual_amount") with
      | nil => exact (hcontra hf).elim
      | cons a l => exact addMarketShare_sum _ (rentGroupsBy_total_pos df _ h)
    · rcases hcol with hc | hc
      · exact absurd hc h1
      · rw [if_neg h1, if_pos hc]
        cases hf : df.rows.filter fun r =>
            posNum (df.numCell r "annual_amount") with
        | nil => exact (hcontra hf).elim
        | cons a l => exact addMarketShare_sum _ (rentGroupsBy_total_pos df _ h)

theorem C4_market_share_sums_to_100_witness :
    ((segment_by_usage dfWithType).map (·.market_share_pct)).sum = 100 ∧
    ((analyze_by_property_type dfWithType).map (·.market_share_pct)).sum = 100 :=
  ⟨(C4_market_share_sums_to_100 dfWithType (by decide)).1,
   (C4_market_share_sums_to_100 dfWithType (by decide)).2 (Or.inl (by decide))⟩

/-- C8: validating an empty frame yields exactly one error, an invalid
result, and empty warning and info lists, because `validate_dataframe`
returns before the info line and the nine checks; on any non-empty frame the
checks do run, witnessed by the info list being non-empty (it starts with
the "Validating n records" entry). -/
theorem C8_empty_dataframe_single_error (df : DataFrame) (strict : Bool) :
    (df.height = 0 → validate_dataframe strict df =
      ⟨[VMsg.dataFrameIsEmpty], [], [], false⟩) ∧
    (df.height ≠ 0 → (validate_dataframe strict df).info ≠ []) := by
  constructor
  · intro h
    unfold validate_dataframe
    rw [if_pos h]
  · intro h
    unfold validate_dataframe
    rw [if_neg h]
    dsimp only
    refine List.ne_nil_of_length_pos ?_
    simp only [List.foldl_cons, List.foldl_nil, CheckOut.append, List.length_append]
    simp

theorem C8_empty_dataframe_single_error_witness :
    validate_dataframe false emptyDataFrame =
      ⟨[VMsg.dataFrameIsEmpty], [], [], false⟩ ∧
    (validate_dataframe false dfLowerRes).info ≠ [] :=
  ⟨(C8_empty_dataframe_single_error emptyDataFrame false).1 rfl,
   (C8_empty_dataframe_single_error dfLowerRes false).2 (by decide)⟩

/-- C9: an unrecognized period name makes `calculate_rental_trends` return
the explicitly empty result, with no exception and no default period. -/
theorem C9_invalid_period_empty_result (df : DataFrame)
    (date_column period : String) (h1 : period ≠ "monthly")
    (h2 : period ≠ "quarterly") (h3 : period ≠ "yearly") :
    calculate_rental_trends df date_column period = [] := by
  unfold calculate_rental_trends
  split
  · rfl
  · dsimp only
    split
    · rfl
    · rfl

theorem C9_invalid_period_empty_result_witness :
    calculate_rental_trends dfLowerRes "contract_start_date" "weekly" = [] :=
  C9_invalid_period_empty_result dfLowerRes "contract_start_date" "weekly"
    (by decide) (by decide) (by decide)

theorem C10_duration_category_boundaries_witness :
    (enrich dfDuration).cellAt 0 "contract_duration_category" =
      some (Value.str (durationCategory (some ((10365 - 10000 : ℤ) : ℚ)))) ∧
    (enrich dfDuration).cellAt 1 "contract_duration_category" =
      some (Value.str "Unknown") ∧
    durationCategory (some 179) = "Short-term" :=
  ⟨(C10_duration_category_boundaries dfDuration (by decide) (by decide) (by decide)
      0 (by decide)).1.1 10000 10365 (by decide) (by decide),
   (C10_duration_category_boundaries dfDuration (by decide) (by decide) (by decide)
      1 (by decide)).1.2 (Or.inr (by decide)),
   (C10_duration_category_boundaries dfDuration (by decide) (by decide) (by decide)
      0 (by decide)).2.1⟩

end DubaiRE
